import Mathlib

/-!
Verification development for the kirkham-parser repository.

The repository contains two copies of the parsing pipeline:
* the modular one: `kirkham/utils.py` (TextUtils), `kirkham/classifier.py`
  (PartOfSpeechClassifier), `kirkham/syntactic.py` (SyntacticParser),
  `kirkham/validator.py` (GrammarRuleValidator), with data models in
  `kirkham/models.py` and word lists in `kirkham/lexicon.py`;
* the monolithic one in `kirkham/parser.py`, which duplicates all of the
  above classes (with small divergences noted below) and is what the public
  `KirkhamParser` facade drives.

This file embeds both, shallowly: strings are Lean `String`s (Python `str`
indexing is per code point, matching Lean `Char` lists), Python `dict`s that
the code only extends/updates are insertion-ordered association lists, and
the in-place mutation of `ParseResult` becomes explicit state passing.
Embedded definitions follow the Python source line by line; where the two
copies of a class genuinely coincide character for character the function is
defined once and used for both pipelines.  Recursions that Python writes as
loops are given an explicit fuel argument when the measure is not
structural; the fuel is always instantiated with a provably sufficient
bound, keeping every definition kernel-computable.
-/

namespace Kirkham

/-! ### Basic enumerations (`kirkham/types.py`) -/

/-- `PartOfSpeech` enumeration from `types.py`. -/
inductive POS where
  | noun | pronoun | adjective | verb | adverb | preposition
  | conjunction | interjection | article | participle | punctuation
  deriving DecidableEq, Repr

/-- `Case` enumeration from `types.py`. -/
inductive PCase where
  | nominative | possessive | objective
  deriving DecidableEq, Repr

/-- `Gender` enumeration from `types.py`. -/
inductive PGender where
  | masculine | feminine | neuter
  deriving DecidableEq, Repr

/-- `Number` enumeration from `types.py`. -/
inductive PNumber where
  | singular | plural
  deriving DecidableEq, Repr

/-- `Person` enumeration from `types.py`. -/
inductive PPerson where
  | first | second | third
  deriving DecidableEq, Repr

/-- `Voice` enumeration from `types.py`. -/
inductive PVoice where
  | active | passive | neuter
  deriving DecidableEq, Repr

/-- `Tense` enumeration from `types.py`. -/
inductive PTense where
  | present | past | future | presentPerfect | pastPerfect | futurePerfect
  deriving DecidableEq, Repr

/-- `SentenceType` enumeration from `types.py`. -/
inductive PSentenceType where
  | declarative | interrogative | imperative | exclamatory
  deriving DecidableEq, Repr

/-! ### Python string helpers

Python string primitives used by the source, modelled over code-point lists
(`String.data`).  Only the behaviour on the character repertoire the
tokenizer can produce matters, but the definitions follow Python semantics
directly. -/

/-- ASCII lower-casing, as `str.lower` acts on the ASCII letters;
non-ASCII characters in scope (curly quotes, dashes) are unaffected by
Python's `lower` as well. -/
def pyLowerChar (c : Char) : Char :=
  if 'A' ≤ c ∧ c ≤ 'Z' then Char.ofNat (c.toNat + 32) else c

/-- Python `str.lower`. -/
def pyLower (s : String) : String := String.mk (s.data.map pyLowerChar)

/-- Python `str.endswith` for a single suffix. -/
def pyEndsWith (s suffix : String) : Bool := suffix.data.isSuffixOf s.data

/-- Python `str.isupper` on a single character: an ASCII cased character
that is upper case.  (All characters fed to it here are from tokenizer
output: letters, digits, apostrophes, hyphens.) -/
def pyIsUpperChar (c : Char) : Bool := 'A' ≤ c ∧ c ≤ 'Z'

/-- Whether a character is an ASCII cased character (the only cased
characters occurring in tokens). -/
def pyIsCased (c : Char) : Bool := ('A' ≤ c ∧ c ≤ 'Z') ∨ ('a' ≤ c ∧ c ≤ 'z')

/-- Python `str.islower`: at least one cased character and every cased
character lower case. -/
def pyIsLower (s : String) : Bool :=
  s.data.any pyIsCased && s.data.all (fun c => !pyIsCased c || ('a' ≤ c ∧ c ≤ 'z'))

/-- Python `s[:-n]`. -/
def pyDropRight (s : String) (n : Nat) : String :=
  String.mk (s.data.take (s.data.length - n))

/-- Python `s[n:]`. -/
def pyDrop (s : String) (n : Nat) : String := String.mk (s.data.drop n)

/-- Python `str.strip("'")`: remove apostrophes from both ends. -/
def pyStripApos (s : String) : String :=
  String.mk (((s.data.dropWhile (· = '\'')).reverse.dropWhile (· = '\'')).reverse)

/-- Membership of a string in a word set (Python `in` on a `frozenset` of
strings). -/
def inSet (s : String) (set : List String) : Bool := set.contains s

/-! ### Lexicon word lists

The `Lexicon` class-level constants.  `kirkham/lexicon.py` and the copy in
`kirkham/parser.py` define exactly the same sets (verified entry by entry),
so they are embedded once. -/

def ARTICLES : List String := ["the", "a", "an"]

def PERSONAL_PRONOUNS : List String :=
  ["i", "you", "he", "she", "it", "we", "they", "me", "him", "her", "us",
   "them", "thou", "thee", "ye"]

def POSSESSIVE_PRONOUNS : List String :=
  ["my", "thy", "your", "his", "her", "its", "our", "their", "mine",
   "thine", "yours", "hers", "ours", "theirs"]

def DEMONSTRATIVE_PRONOUNS : List String := ["this", "that", "these", "those"]

def RELATIVE_PRONOUNS : List String :=
  ["who", "whom", "whose", "which", "that", "what"]

def COORDINATING_CONJUNCTIONS : List String :=
  ["and", "or", "but", "nor", "for", "yet", "so"]

def SUBORDINATING_CONJUNCTIONS : List String :=
  ["after", "although", "as", "because", "before", "if", "since", "than",
   "that", "though", "unless", "until", "when", "where", "whether", "while"]

def PREPOSITIONS : List String :=
  ["of", "to", "in", "for", "on", "with", "at", "from", "by", "about", "as",
   "into", "like", "through", "after", "over", "between", "out", "against",
   "during", "without", "before", "under", "around", "among", "beneath",
   "beside", "beyond", "near", "above", "below", "across", "behind", "within"]

def AUXILIARY_BE : List String :=
  ["am", "is", "are", "was", "were", "be", "been", "being"]

def AUXILIARY_HAVE : List String := ["have", "has", "had", "having"]

def AUXILIARY_DO : List String := ["do", "does", "did"]

def AUXILIARY_GET : List String := ["get", "gets", "got", "getting", "gotten"]

def MODAL_VERBS : List String :=
  ["may", "might", "can", "could", "shall", "should", "will", "would",
   "must", "ought"]

def COMMON_TRANSITIVE_VERBS : List String :=
  ["see", "sees", "saw", "seen", "know", "knows", "knew", "known", "make",
   "makes", "made", "take", "takes", "took", "taken", "give", "gives",
   "gave", "given", "find", "finds", "found", "tell", "tells", "told",
   "call", "calls", "called", "ask", "asks", "asked", "use", "uses", "used",
   "write", "writes", "wrote", "written", "love", "loves", "loved", "help",
   "helps", "helped", "build", "builds", "built", "read", "reads", "buy",
   "buys", "bought", "sell", "sells", "sold", "show", "shows", "showed",
   "shown", "bring", "brings", "brought", "send", "sends", "sent"]

def COMMON_INTRANSITIVE_VERBS : List String :=
  ["go", "goes", "went", "gone", "come", "comes", "came", "run", "runs",
   "ran", "walk", "walks", "walked", "sit", "sits", "sat", "stand",
   "stands", "stood", "sleep", "sleeps", "slept", "die", "dies", "died",
   "arrive", "arrives", "arrived", "sing", "sings", "sang", "sung", "jump",
   "jumps", "jumped"]

def COMMON_NOUNS : List String :=
  ["cat", "dog", "bird", "fox", "lion", "tiger", "man", "woman", "child",
   "person", "people", "house", "home", "building", "room", "door", "book",
   "paper", "pen", "pencil", "day", "night", "morning", "evening", "time",
   "year", "month", "week", "name", "place", "thing", "world", "hand",
   "eye", "face", "head", "city", "town", "country", "state", "school",
   "university", "college", "engineer", "teacher", "doctor", "student",
   "software", "hardware", "computer"]

def COMMON_ADJECTIVES : List String :=
  ["good", "bad", "big", "small", "large", "little", "old", "new", "young",
   "long", "short", "hot", "cold", "warm", "cool", "quick", "slow", "fast",
   "lazy", "beautiful", "ugly", "pretty", "handsome", "happy", "sad",
   "angry", "glad", "red", "blue", "green", "yellow", "black", "white",
   "brown", "interesting", "boring", "difficult", "easy", "important",
   "necessary", "possible", "impossible"]

def INTERJECTIONS : List String :=
  ["oh", "ah", "alas", "hello", "hey", "wow", "ouch", "hurray"]

def ADVERBS : List String :=
  ["quickly", "slowly", "very", "quite", "rather", "well", "badly",
   "always", "never", "often", "sometimes", "here", "there", "now", "then",
   "today", "yesterday", "tomorrow"]

/-- `TextUtils.IRREGULAR_PARTICIPLES` (identical in `utils.py` and
`parser.py`). -/
def IRREGULAR_PARTICIPLES : List String :=
  ["been", "seen", "known", "given", "taken", "written", "spoken", "broken",
   "chosen", "frozen", "stolen", "beaten", "eaten", "fallen", "forgotten",
   "hidden", "driven", "risen", "sworn", "torn", "worn", "born", "borne",
   "drawn", "grown", "shown", "thrown", "flown", "blown", "sown", "mown",
   "gone", "done", "made", "said", "heard", "told", "found", "felt", "kept",
   "slept", "left", "meant", "built", "sent", "spent", "lost", "won", "met",
   "sat", "stood", "caught", "taught", "brought", "fought", "thought",
   "bought", "sought", "sold", "held", "read"]

/-- `TextUtils.IRREGULAR_PLURALS` (identical in both copies). -/
def IRREGULAR_PLURALS : List String :=
  ["men", "women", "children", "people", "teeth", "feet", "mice", "geese",
   "oxen", "sheep", "deer", "fish", "species", "series", "aircraft",
   "offspring", "data", "criteria", "phenomena", "bacteria", "alumni",
   "fungi", "nuclei", "syllabi", "stimuli", "analyses", "bases", "crises",
   "diagnoses", "hypotheses", "oases", "parentheses", "syntheses", "theses",
   "appendices", "indices", "matrices", "vertices"]

/-! ### Tokenizer (`TextUtils.TOKEN_PATTERN` / `TextUtils.tokenize`)

The regular expression (identical in `utils.py` and `parser.py`):

```
[A-Za-z]+(?:['’][A-Za-z]+)*(?:-[A-Za-z]+)*   (word branch)
| \d+(?:\.\d+)?                                   (number branch)
| single punctuation/quote/dash character      (punct branch)
```

run through `re.finditer`: at each scan position the engine attempts a
match; on success it emits the (greedy) match and resumes at its end, on
failure it advances one character.  The three branches fire on disjoint
first characters (ASCII letter / ASCII digit / punctuation-class
character), so alternation order never arbitrates, and the starred groups
are unambiguous under greedy matching because each repetition begins with a
character that terminates the previous group. -/

def isAsciiLetter (c : Char) : Bool := ('A' ≤ c ∧ c ≤ 'Z') ∨ ('a' ≤ c ∧ c ≤ 'z')

def isAsciiDigit (c : Char) : Bool := '0' ≤ c ∧ c ≤ '9'

/-- The single-character punctuation branch of `TOKEN_PATTERN`:
periods, commas, semicolons, colons, bangs, question marks, parentheses,
brackets, braces, straight and curly quotes, em/en dashes, hyphens. -/
def punctClassChars : List Char :=
  ['.', ',', ';', ':', '!', '?', '(', ')', '[', ']', '\x7b', '\x7d', '"',
   '\'', '‘', '’', '“', '”', '—', '–', '-']

/-- `List.span`-style splitter used by the greedy matchers. -/
def spanP (p : Char → Bool) : List Char → List Char × List Char
  | [] => ([], [])
  | c :: cs =>
    if p c then
      let r := spanP p cs
      (c :: r.1, r.2)
    else ([], c :: cs)

theorem spanP_append (p : Char → Bool) (cs : List Char) :
    (spanP p cs).1 ++ (spanP p cs).2 = cs := by
  induction cs with
  | nil => rfl
  | cons c cs ih =>
    by_cases h : p c <;> simp [spanP, h, ih]

/-- Greedy repetition of an `X[A-Za-z]+` group where `X` is recognised by
`lead`; each iteration consumes at least two characters, so a fuel of the
input length always suffices (the explicit fuel keeps the recursion
structural and hence kernel-computable). -/
def matchRepF (lead : Char → Bool) : Nat → List Char → List Char × List Char
  | 0, cs => ([], cs)
  | fuel + 1, cs =>
    match cs with
    | [] => ([], [])
    | c :: rest =>
      if lead c ∧ (spanP isAsciiLetter rest).1 ≠ [] then
        let r := matchRepF lead fuel (spanP isAsciiLetter rest).2
        (c :: ((spanP isAsciiLetter rest).1 ++ r.1), r.2)
      else ([], c :: rest)

/-- Greedy `(?:['’][A-Za-z]+)*`: repeatedly consume an apostrophe (ASCII
or U+2019) followed by at least one letter. -/
def matchApos (cs : List Char) : List Char × List Char :=
  matchRepF (fun c => c = '\'' || c = '’') cs.length cs

/-- Greedy `(?:-[A-Za-z]+)*`. -/
def matchHyph (cs : List Char) : List Char × List Char :=
  matchRepF (fun c => c = '-') cs.length cs

theorem matchRepF_append (lead : Char → Bool) :
    ∀ fuel cs,
      (matchRepF lead fuel cs).1 ++ (matchRepF lead fuel cs).2 = cs := by
  intro fuel
  induction fuel with
  | zero => intro cs; rfl
  | succ fuel ih =>
    intro cs
    cases cs with
    | nil => rfl
    | cons c rest =>
      by_cases h : lead c ∧ (spanP isAsciiLetter rest).1 ≠ []
      · simp only [matchRepF, if_pos h, List.cons_append, List.append_assoc,
          ih]
        rw [spanP_append]
      · simp [matchRepF, h]

theorem matchApos_append (cs : List Char) :
    (matchApos cs).1 ++ (matchApos cs).2 = cs :=
  matchRepF_append _ cs.length cs

theorem matchHyph_append (cs : List Char) :
    (matchHyph cs).1 ++ (matchHyph cs).2 = cs :=
  matchRepF_append _ cs.length cs

/-- The greedy-optional fraction group `(?:\.\d+)?` of the number branch:
consume a dot only when at least one digit follows it. -/
def matchFrac : List Char → List Char × List Char
  | [] => ([], [])
  | c :: r2 =>
    if c = '.' ∧ (spanP isAsciiDigit r2).1 ≠ [] then
      (c :: (spanP isAsciiDigit r2).1, (spanP isAsciiDigit r2).2)
    else ([], c :: r2)

theorem matchFrac_append (cs : List Char) :
    (matchFrac cs).1 ++ (matchFrac cs).2 = cs := by
  cases cs with
  | nil => rfl
  | cons c r2 =>
    by_cases h : c = '.' ∧ (spanP isAsciiDigit r2).1 ≠ []
    · simp only [matchFrac, if_pos h, List.cons_append]
      rw [spanP_append]
    · simp [matchFrac, h]

/-- Attempt to match one token of `TOKEN_PATTERN` at a position whose first
character is `c` and remaining input is `cs`.  Returns the matched
characters and the rest of the input. -/
def matchTokenFrom (c : Char) (cs : List Char) :
    Option (List Char × List Char) :=
  if isAsciiLetter c then
    -- word branch
    let s1 := spanP isAsciiLetter cs
    let s2 := matchApos s1.2
    let s3 := matchHyph s2.2
    some (c :: (s1.1 ++ s2.1 ++ s3.1), s3.2)
  else if isAsciiDigit c then
    -- number branch: \d+ then optionally (\.\d+)
    let s1 := spanP isAsciiDigit cs
    let s2 := matchFrac s1.2
    some (c :: (s1.1 ++ s2.1), s2.2)
  else if punctClassChars.contains c then
    some ([c], cs)
  else
    none

theorem matchTokenFrom_append (c : Char) (cs tok rest : List Char)
    (h : matchTokenFrom c cs = some (tok, rest)) :
    tok ++ rest = c :: cs ∧ tok ≠ [] := by
  unfold matchTokenFrom at h
  by_cases h1 : isAsciiLetter c
  · simp only [if_pos h1, Option.some.injEq, Prod.mk.injEq] at h
    obtain ⟨htok, hrest⟩ := h
    subst htok hrest
    refine ⟨?_, by simp⟩
    simp only [List.cons_append, List.cons.injEq, true_and, List.append_assoc]
    rw [matchHyph_append, matchApos_append, spanP_append]
  · simp only [if_neg h1] at h
    by_cases h2 : isAsciiDigit c
    · simp only [if_pos h2, Option.some.injEq, Prod.mk.injEq] at h
      obtain ⟨htok, hrest⟩ := h
      subst htok hrest
      refine ⟨?_, by simp⟩
      simp only [List.cons_append, List.cons.injEq, true_and,
        List.append_assoc]
      rw [matchFrac_append, spanP_append]
    · simp only [if_neg h2] at h
      by_cases h3 : punctClassChars.contains c
      · simp only [if_pos h3, Option.some.injEq, Prod.mk.injEq] at h
        obtain ⟨htok, hrest⟩ := h
        subst htok hrest
        simp
      · rw [if_neg h3] at h
        exact Option.noConfusion h

/-- `re.finditer` scan with explicit fuel (each step consumes at least one
character, so the input length is a sufficient fuel).  `pos` is the
absolute code-point offset of the head of the list. -/
def scanTokensF : Nat → List Char → Nat → List (String × Nat × Nat)
  | 0, _, _ => []
  | fuel + 1, l, pos =>
    match l with
    | [] => []
    | c :: cs =>
      match matchTokenFrom c cs with
      | some (tok, rest) =>
        (String.mk tok, pos, pos + tok.length) ::
          scanTokensF fuel rest (pos + tok.length)
      | none => scanTokensF fuel cs (pos + 1)

/-- The scan with its canonical fuel. -/
def scanTokens (l : List Char) (pos : Nat) : List (String × Nat × Nat) :=
  scanTokensF l.length l pos

/-- `TextUtils.tokenize`: list of `(token_text, start, end)` triples. -/
def tokenize (text : String) : List (String × Nat × Nat) :=
  scanTokens text.data 0

/-! ### Tokenizer span properties (claim C7) -/

theorem drop_append_ge {α : Type} (l₁ l₂ : List α) (n : Nat)
    (h : l₁.length ≤ n) :
    (l₁ ++ l₂).drop n = l₂.drop (n - l₁.length) := by
  induction l₁ generalizing n with
  | nil => simp
  | cons a l ih =>
    cases n with
    | zero => simp at h
    | succ m =>
      simp only [List.cons_append, List.drop_succ_cons]
      rw [ih _ (by simpa using h)]
      congr 1
      simp

/-- Every emitted entry starts at or after the scan position, its `end` is
`start` + token length, the token is nonempty and equals the corresponding
slice of the input. -/
theorem scanTokensF_mem_spec :
    ∀ fuel l pos, l.length ≤ fuel →
      ∀ tok s e, (tok, s, e) ∈ scanTokensF fuel l pos →
        pos ≤ s ∧ e = s + tok.length ∧ tok.data ≠ [] ∧
          tok.data = (l.drop (s - pos)).take tok.length := by
  intro fuel
  induction fuel with
  | zero =>
    intro l pos hf tok s e hmem
    simp [scanTokensF] at hmem
  | succ fuel ih =>
    intro l pos hf tok s e hmem
    cases l with
    | nil => simp [scanTokensF] at hmem
    | cons c cs =>
      simp only [List.length_cons] at hf
      cases hm : matchTokenFrom c cs with
      | some v =>
        obtain ⟨t, rest⟩ := v
        obtain ⟨happ, hne⟩ := matchTokenFrom_append c cs t rest hm
        have hlen2 : t.length + rest.length = cs.length + 1 := by
          have := congrArg List.length happ
          simpa using this
        have hlen : 1 ≤ t.length := by
          cases t with
          | nil => exact absurd rfl hne
          | cons _ _ => simp
        simp only [scanTokensF, hm] at hmem
        rcases List.mem_cons.mp hmem with heq | htail
        · obtain ⟨h1, h2, h3⟩ :
              tok = String.mk t ∧ s = pos ∧ e = pos + t.length := by
            simpa [Prod.ext_iff] using heq
          subst h1 h2 h3
          refine ⟨le_refl _, by simp, by simpa using hne, ?_⟩
          simp only [Nat.sub_self, List.drop_zero]
          rw [← happ]
          simp
        · obtain ⟨hle, he, hne2, hslice⟩ :=
            ih rest (pos + t.length) (by omega) tok s e htail
          refine ⟨by omega, he, hne2, ?_⟩
          have hdrop :
              (c :: cs).drop (s - pos) = rest.drop (s - (pos + t.length)) := by
            rw [← happ, drop_append_ge t rest (s - pos) (by omega)]
            congr 1
            omega
          rw [hdrop]
          exact hslice
      | none =>
        simp only [scanTokensF, hm] at hmem
        obtain ⟨hle, he, hne2, hslice⟩ :=
          ih cs (pos + 1) (by omega) tok s e hmem
        refine ⟨by omega, he, hne2, ?_⟩
        have hdrop : (c :: cs).drop (s - pos) = cs.drop (s - (pos + 1)) := by
          have h1 : s - pos = (s - (pos + 1)) + 1 := by omega
          rw [h1]
          simp
        rw [hdrop]
        exact hslice

/-- Consecutive tokens do not overlap: each token ends at or before the
next one starts. -/
theorem scanTokensF_chain :
    ∀ fuel l pos, l.length ≤ fuel →
      List.Chain' (fun a b => a.2.2 ≤ b.2.1) (scanTokensF fuel l pos) := by
  intro fuel
  induction fuel with
  | zero => intro l pos _; simp [scanTokensF]
  | succ fuel ih =>
    intro l pos hf
    cases l with
    | nil => simp [scanTokensF]
    | cons c cs =>
      simp only [List.length_cons] at hf
      cases hm : matchTokenFrom c cs with
      | some v =>
        obtain ⟨t, rest⟩ := v
        obtain ⟨happ, hne⟩ := matchTokenFrom_append c cs t rest hm
        have hlen2 : t.length + rest.length = cs.length + 1 := by
          have := congrArg List.length happ
          simpa using this
        have hlen : 1 ≤ t.length := by
          cases t with
          | nil => exact absurd rfl hne
          | cons _ _ => simp
        simp only [scanTokensF, hm]
        refine List.chain'_cons'.mpr ⟨?_, ih rest (pos + t.length) (by omega)⟩
        intro y hy
        have hmem : y ∈ scanTokensF fuel rest (pos + t.length) := by
          cases hsc : scanTokensF fuel rest (pos + t.length) with
          | nil => simp [hsc] at hy
          | cons a tl =>
            simp [hsc] at hy
            simp [hsc, hy]
        obtain ⟨hle, _, _, _⟩ :=
          scanTokensF_mem_spec fuel rest (pos + t.length) (by omega)
            y.1 y.2.1 y.2.2 (by simpa using hmem)
        simpa using hle
      | none =>
        simp only [scanTokensF, hm]
        exact ih cs (pos + 1) (by omega)

/-- Interleave token texts with the exact source inter-token gaps: `cs` is
the still-unrendered suffix of the source, starting at absolute position
`pos`. -/
def renderFrom (cs : List Char) (pos : Nat) :
    List (String × Nat × Nat) → List Char
  | [] => cs
  | (t, s, e) :: rest =>
    cs.take (s - pos) ++ t.data ++ renderFrom (cs.drop (e - pos)) e rest

/-- Reassembling the token texts with the exact source gaps between them
reproduces the input. -/
theorem renderFrom_scanTokensF :
    ∀ fuel l pos, l.length ≤ fuel →
      renderFrom l pos (scanTokensF fuel l pos) = l := by
  intro fuel
  induction fuel with
  | zero =>
    intro l pos hf
    have : l = [] := List.length_eq_zero.mp (Nat.le_zero.mp hf)
    subst this
    simp [scanTokensF, renderFrom]
  | succ fuel ih =>
    intro l pos hf
    cases l with
    | nil => simp [scanTokensF, renderFrom]
    | cons c cs =>
      simp only [List.length_cons] at hf
      cases hm : matchTokenFrom c cs with
      | some v =>
        obtain ⟨t, rest⟩ := v
        obtain ⟨happ, hne⟩ := matchTokenFrom_append c cs t rest hm
        have hlen2 : t.length + rest.length = cs.length + 1 := by
          have := congrArg List.length happ
          simpa using this
        have hlen : 1 ≤ t.length := by
          cases t with
          | nil => exact absurd rfl hne
          | cons _ _ => simp
        simp only [scanTokensF, hm]
        rw [renderFrom]
        simp only [Nat.sub_self, List.take_zero, List.nil_append]
        have hdrop : (c :: cs).drop (pos + t.length - pos) = rest := by
          rw [← happ, drop_append_ge t rest (pos + t.length - pos) (by omega)]
          simp [Nat.add_sub_cancel_left]
        rw [hdrop, ih rest (pos + t.length) (by omega), ← happ]
      | none =>
        simp only [scanTokensF, hm]
        cases hsc : scanTokensF fuel cs (pos + 1) with
        | nil =>
          rw [renderFrom]
        | cons y tl =>
          obtain ⟨t, s, e⟩ := y
          obtain ⟨hle, he, _, _⟩ :=
            scanTokensF_mem_spec fuel cs (pos + 1) (by omega) t s e (by
              rw [hsc]; exact List.mem_cons_self _ _)
          rw [renderFrom]
          have h1 : s - pos = (s - (pos + 1)) + 1 := by omega
          have h2 : e - pos = (e - (pos + 1)) + 1 := by omega
          rw [h1, h2]
          simp only [List.take_succ_cons, List.drop_succ_cons]
          have hih := ih cs (pos + 1) (by omega)
          rw [hsc] at hih
          rw [renderFrom] at hih
          rw [List.cons_append]
          simpa [List.append_assoc] using hih

/-- Whether code-point position `i` lies inside some token span. -/
def coveredByToken (toks : List (String × Nat × Nat)) (i : Nat) : Bool :=
  toks.any (fun t => t.2.1 ≤ i ∧ i < t.2.2)

/-- Python `str.isspace` restricted to the ASCII whitespace characters. -/
def pyIsSpace (c : Char) : Bool :=
  c ∈ [' ', '\t', '\n', '\x0b', '\x0c', '\r']

/-- The spec's coverage property, as claimed: every character of the text
is inside a token span or is whitespace (an inter-token gap consisting only
of whitespace). -/
def gapsWhitespaceOnly (text : String) : Bool :=
  (List.range text.data.length).all
    (fun i => coveredByToken (tokenize text) i || pyIsSpace (text.data.getD i ' '))

/-- C7, counterexample: on the input `"a@b"` the tokenizer emits the tokens
`"a"` and `"b"` and leaves `'@'` — which is not whitespace — in the
inter-token gap, so not every character is covered by a token span or a
whitespace-only gap. -/
theorem c7_gap_not_whitespace :
    gapsWhitespaceOnly "a@b" = false ∧
    tokenize "a@b" = [("a", 0, 1), ("b", 2, 3)] ∧
    coveredByToken (tokenize "a@b") 1 = false ∧
    "a@b".data.getD 1 ' ' = '@' ∧ pyIsSpace '@' = false := by
  refine ⟨by decide, by decide, by decide, by decide, by decide⟩

/-- C7, amended: tokenization still guarantees byte-exact reconstruction —
every token's text equals the source slice at its span (`end` = `start` +
length, token nonempty), consecutive spans never overlap, and interleaving
the token texts with the exact source gaps reproduces the input; but a gap
may contain arbitrary unmatched characters, not only whitespace. -/
theorem c7_tokenize_reconstruction (text : String) :
    renderFrom text.data 0 (tokenize text) = text.data ∧
    List.Chain' (fun a b => a.2.2 ≤ b.2.1) (tokenize text) ∧
    ∀ tok s e, (tok, s, e) ∈ tokenize text →
      e = s + tok.length ∧ tok.data ≠ [] ∧
      tok.data = (text.data.drop s).take tok.length := by
  refine ⟨renderFrom_scanTokensF text.data.length text.data 0 (le_refl _),
    scanTokensF_chain text.data.length text.data 0 (le_refl _),
    fun tok s e h => ?_⟩
  obtain ⟨_, he, hne, hs⟩ :=
    scanTokensF_mem_spec text.data.length text.data 0 (le_refl _) tok s e h
  exact ⟨he, hne, by simpa using hs⟩

/-- Witness for `c7_tokenize_reconstruction` at a concrete input. -/
theorem c7_tokenize_reconstruction_witness :
    renderFrom ("The cat sat.".data) 0 (tokenize "The cat sat.") =
      "The cat sat.".data ∧
    (("cat" : String), 4, 7) ∈ tokenize "The cat sat." ∧
    ("cat" : String).data = ("The cat sat.".data.drop 4).take 3 := by
  refine ⟨(c7_tokenize_reconstruction "The cat sat.").1, by decide, ?_⟩
  have h := (c7_tokenize_reconstruction "The cat sat.").2.2 "cat" 4 7 (by decide)
  exact h.2.2

/-! ### TextUtils word helpers (identical in `utils.py` and `parser.py`,
except for the adjective-suffix pattern, which differs between the files) -/

/-- `TextUtils.strip_possessive`. -/
def strip_possessive (word : String) : String × Bool :=
  if pyEndsWith word "'s" then (pyDropRight word 2, true)
  else if pyEndsWith word "'" then (pyDropRight word 1, true)
  else (word, false)

/-- `TextUtils.is_capitalized`: first letter upper, rest lower. -/
def is_capitalized (word : String) : Bool :=
  match word.data with
  | [] => false
  | c :: rest => pyIsUpperChar c && pyIsLower (String.mk rest)

/-- `TextUtils.is_plural_noun`. -/
def is_plural_noun (word : String) : Bool :=
  if pyEndsWith word "'s" || pyEndsWith word "s'" then false
  else
    let w0 := pyStripApos (pyLower word)
    let w := if pyEndsWith w0 "'s" then pyDropRight w0 2
             else if pyEndsWith w0 "s'" then pyDropRight w0 1
             else w0
    if inSet w IRREGULAR_PLURALS then true
    else if pyEndsWith w "ss" || pyEndsWith w "us" || pyEndsWith w "is" then
      false
    else pyEndsWith w "s"

/-- `TextUtils.is_past_participle`. -/
def is_past_participle (word : String) : Bool :=
  let w := pyLower word
  inSet w IRREGULAR_PARTICIPLES || pyEndsWith w "ed"

/-- `TextUtils.is_present_participle`. -/
def is_present_participle (word : String) : Bool :=
  pyEndsWith (pyLower word) "ing"

/-- `utils.py`'s `ADJECTIVE_SUFFIX_PATTERN`
`(ous|ive|ful|less|al|able|ible|ic|ish|ent|ant)$`. -/
def ADJ_SUFFIXES_UTILS : List String :=
  ["ous", "ive", "ful", "less", "al", "able", "ible", "ic", "ish", "ent",
   "ant"]

/-- `parser.py`'s `ADJECTIVE_SUFFIX_PATTERN` — it additionally contains
`ary`: `(ous|ive|ful|less|al|ary|able|ible|ic|ish|ent|ant)$`. -/
def ADJ_SUFFIXES_PARSER : List String :=
  ["ous", "ive", "ful", "less", "al", "ary", "able", "ible", "ic", "ish",
   "ent", "ant"]

/-- `.search` of an `(...)$` alternation = the string ends with one of the
suffixes (lemmas are already lower case, subsuming `re.IGNORECASE`). -/
def adjSuffixMatch (suffixes : List String) (lem : String) : Bool :=
  suffixes.any (fun sfx => pyEndsWith lem sfx)

/-! ### Data model (`kirkham/models.py`; duplicated in `parser.py`) -/

/-- The token feature map.  The Python code stores an open `dict`, but the
keys actually written are exactly these; absent key = `none`.  The `tense`
field exists because the modular `_check_agreement` reads
`features.get("tense")`, though no classifier ever writes it. -/
structure Features where
  auxiliary : Option String := none
  modal : Option Bool := none
  transitive : Option Bool := none
  sg3 : Option Bool := none          -- the "3sg" key
  participle : Option String := none
  tense : Option String := none
  definite : Option Bool := none
  pronounType : Option String := none
  conjunctionType : Option String := none
  proper : Option Bool := none
  base : Option String := none
  deriving DecidableEq, Repr

/-- Python truthiness of `features.get(k)` for a string-valued key. -/
def optStrTruthy : Option String → Bool
  | none => false
  | some s => s.data ≠ []

/-- Python truthiness of `features.get(k)` for a bool-valued key. -/
def optBoolTruthy : Option Bool → Bool
  | none => false
  | some b => b

/-- `Token` dataclass.  `lemma` is a Lean keyword, so the field is `lem`;
`end` likewise, so the field is `stop`. -/
structure Token where
  text : String
  lem : String
  pos : POS
  start : Nat := 0
  stop : Nat := 0
  case : Option PCase := none
  gender : Option PGender := none
  number : Option PNumber := none
  person : Option PPerson := none
  features : Features := {}
  deriving DecidableEq, Repr

instance : Inhabited Token :=
  ⟨{ text := "", lem := "", pos := POS.noun }⟩

/-- `Phrase` dataclass. -/
structure Phrase where
  tokens : List Token
  phrase_type : String
  head_index : Nat
  deriving DecidableEq, Repr

/-- `Phrase.head_token` (`self.tokens[self.head_index]`; the index is in
range for every phrase the parser builds). -/
def Phrase.head_token (p : Phrase) : Token := p.tokens.getD p.head_index default

/-- `Span` dataclass. -/
structure PSpan where
  start : Nat
  stop : Nat
  deriving DecidableEq, Repr

/-- `Flag` dataclass; `rule` holds the `RuleID.value` string. -/
structure Flag where
  rule : String
  message : String
  span : Option PSpan := none
  deriving DecidableEq, Repr

/-- `ParseResult` dataclass.  `rule_checks` is a `dict[str, bool]`
(insertion-ordered), embedded as an association list. -/
structure ParseResult where
  tokens : List Token
  subject : Option Phrase := none
  verb_phrase : Option Phrase := none
  object_phrase : Option Phrase := none
  voice : Option PVoice := none
  tense : Option PTense := none
  sentence_type : Option PSentenceType := none
  rule_checks : List (String × Bool) := []
  flags : List Flag := []
  errors : List String := []
  warnings : List String := []
  notes : List String := []
  deriving DecidableEq, Repr

/-- Python `dict` assignment `d[k] = v`: overwrite in place if the key is
present, else append (insertion-ordered semantics). -/
def dictSet (d : List (String × Bool)) (k : String) (v : Bool) :
    List (String × Bool) :=
  if d.any (fun p => p.1 = k) then
    d.map (fun p => if p.1 = k then (k, v) else p)
  else d ++ [(k, v)]

/-- Python `d.get(k)` / `k in d` lookup on the embedded dict. -/
def dictGet? (d : List (String × Bool)) (k : String) : Option Bool :=
  (d.find? (fun p => p.1 = k)).map (·.2)

/-! ### Part-of-speech classifier

Two embeddings: `classifierClassify` follows `kirkham/classifier.py`
(possessive pronouns checked before personal ones, gender analysis,
context-driven overrides for "like"/"work"/"wrong", `utils.py` suffix
list), `parserClassify` follows the copy in `kirkham/parser.py` (personal
pronouns first, no gender, no context overrides, suffix list with `ary`).
Both use the default lexicon, which is what every call site in scope
passes. -/

/-- The characters matched by `PartOfSpeechClassifier.PUNCTUATION_PATTERN`
(`[.,;:!?()]$`, used with `fullmatch` on single-character tokens; identical
in both files). -/
def PUNCT_CLASSIFY_CHARS : List Char := ['.', ',', ';', ':', '!', '?', '(', ')']

/-- `classify`'s opening test:
`len(word) == 1 and PUNCTUATION_PATTERN.fullmatch(word)`. -/
def isClassifierPunct (word : String) : Bool :=
  word.data.length = 1 && PUNCT_CLASSIFY_CHARS.contains (word.data.headD ' ')

/-- `PartOfSpeechClassifier._is_verb` (identical in both files). -/
def isVerbLemma (lem : String) : Bool :=
  if lem = "has" || lem = "does" then true
  else if inSet lem AUXILIARY_BE || inSet lem AUXILIARY_HAVE ||
      inSet lem AUXILIARY_DO || inSet lem AUXILIARY_GET ||
      inSet lem MODAL_VERBS || inSet lem COMMON_TRANSITIVE_VERBS ||
      inSet lem COMMON_INTRANSITIVE_VERBS then true
  else if inSet lem COMMON_NOUNS || inSet lem COMMON_ADJECTIVES then false
  else if (pyEndsWith lem "ed" || pyEndsWith lem "ing") &&
      lem.data.length > 3 then true
  else if pyEndsWith lem "s" &&
      !(pyEndsWith lem "ss" || pyEndsWith lem "us" || pyEndsWith lem "is") then
    let base := pyDropRight lem 1
    inSet base COMMON_TRANSITIVE_VERBS || inSet base COMMON_INTRANSITIVE_VERBS
  else false

/-- `PartOfSpeechClassifier._is_adverb` (identical in both files). -/
def isAdverbLemma (lem : String) : Bool :=
  inSet lem ADVERBS || pyEndsWith lem "ly"

/-- `_analyze_pronoun` (identical in both files): person, number, case. -/
def analyzePronoun (p : String) : PPerson × PNumber × PCase :=
  if p = "i" then (.first, .singular, .nominative)
  else if p = "me" then (.first, .singular, .objective)
  else if p = "we" then (.first, .plural, .nominative)
  else if p = "us" then (.first, .plural, .objective)
  else if p = "you" || p = "ye" then (.second, .singular, .nominative)
  else if p = "thou" then (.second, .singular, .nominative)
  else if p = "thee" then (.second, .singular, .objective)
  else if p = "he" then (.third, .singular, .nominative)
  else if p = "him" then (.third, .singular, .objective)
  else if p = "she" then (.third, .singular, .nominative)
  else if p = "her" then (.third, .singular, .objective)
  else if p = "it" then (.third, .singular, .nominative)
  else if p = "they" then (.third, .plural, .nominative)
  else if p = "them" then (.third, .plural, .objective)
  else (.third, .singular, .nominative)

/-- `classifier.py`'s `_get_pronoun_gender`. -/
def getPronounGender (lem : String) : PGender :=
  if inSet lem ["i", "me", "we", "us", "my", "mine", "our", "ours"] then
    .neuter
  else if inSet lem ["you", "ye", "your", "yours", "thou", "thee", "thy",
      "thine"] then .neuter
  else if inSet lem ["he", "him", "his"] then .masculine
  else if inSet lem ["she", "her", "hers"] then .feminine
  else if inSet lem ["it", "its"] then .neuter
  else if inSet lem ["they", "them", "their", "theirs"] then .neuter
  else .neuter

/-- `classifier.py`'s `_get_person_from_pronoun`. -/
def getPersonFromPronoun (lem : String) : PPerson :=
  if inSet lem ["my", "mine", "our", "ours"] then .first
  else if inSet lem ["your", "yours"] then .second
  else if inSet lem ["his", "her", "hers", "its", "their", "theirs"] then
    .third
  else .third

/-- `_create_verb_token` (identical in both files). -/
def createVerbToken (word lem : String) (start stop : Nat) : Token :=
  let aux : Option String :=
    if inSet lem AUXILIARY_BE then some "be"
    else if inSet lem AUXILIARY_HAVE then some "have"
    else if inSet lem AUXILIARY_DO then some "do"
    else if inSet lem AUXILIARY_GET then some "get"
    else none
  let modal : Option Bool :=
    if aux = none ∧ inSet lem MODAL_VERBS then some true else none
  let transitive : Option Bool :=
    if inSet lem COMMON_TRANSITIVE_VERBS then some true
    else if inSet lem COMMON_INTRANSITIVE_VERBS then some false
    else none
  let sg3 :=
    pyEndsWith word "s" && !(pyEndsWith word "ss" || pyEndsWith word "us")
  let participle : Option String :=
    if is_past_participle lem then some "past"
    else if is_present_participle lem then some "present"
    else none
  { text := word, lem := lem, pos := POS.verb, start := start, stop := stop,
    person := if sg3 then some .third else none,
    number := if sg3 then some .singular else none,
    features := { auxiliary := aux, modal := modal, transitive := transitive,
                  sg3 := if sg3 then some true else none,
                  participle := participle } }

/-- `_create_noun_token` (identical in both files). -/
def createNounToken (word lem : String) (is_possessive : Bool)
    (start stop : Nat) : Token :=
  { text := word, lem := lem, pos := POS.noun, start := start, stop := stop,
    case := if is_possessive then some .possessive else some .nominative,
    number := if is_plural_noun word then some .plural else some .singular,
    person := some .third,
    features := { proper := some (is_capitalized word) } }

/-- `_create_article_token` (identical in both files). -/
def createArticleToken (word lem : String) (start stop : Nat) : Token :=
  { text := word, lem := lem, pos := POS.article, start := start,
    stop := stop, features := { definite := some (lem = "the") } }

/-- `_create_demonstrative_token` (identical in both files). -/
def createDemonstrativeToken (word lem : String) (start stop : Nat) : Token :=
  { text := word, lem := lem, pos := POS.pronoun, start := start,
    stop := stop,
    number := if lem = "these" || lem = "those" then some .plural
              else some .singular,
    features := { pronounType := some "demonstrative" } }

/-- `_create_relative_pronoun_token` (identical in both files). -/
def createRelativePronounToken (word lem : String) (start stop : Nat) :
    Token :=
  { text := word, lem := lem, pos := POS.pronoun, start := start,
    stop := stop, features := { pronounType := some "relative" } }

/-- `_create_conjunction_token` (identical in both files). -/
def createConjunctionToken (word lem : String) (start stop : Nat) : Token :=
  let conjType : String :=
    if inSet lem COORDINATING_CONJUNCTIONS then "coordinating"
    else "subordinating"
  { text := word, lem := lem, pos := POS.conjunction, start := start,
    stop := stop, features := { conjunctionType := some conjType } }

/-- `_create_preposition_token` (identical in both files). -/
def createPrepositionToken (word lem : String) (start stop : Nat) : Token :=
  { text := word, lem := lem, pos := POS.preposition, start := start,
    stop := stop }

/-- `_create_interjection_token` (identical in both files). -/
def createInterjectionToken (word lem : String) (start stop : Nat) : Token :=
  { text := word, lem := lem, pos := POS.interjection, start := start,
    stop := stop }

/-- `_create_adverb_token` (identical in both files). -/
def createAdverbToken (word lem : String) (start stop : Nat) : Token :=
  { text := word, lem := lem, pos := POS.adverb, start := start,
    stop := stop }

/-- `_create_adjective_token` (identical in both files). -/
def createAdjectiveToken (word lem : String) (start stop : Nat) : Token :=
  { text := word, lem := lem, pos := POS.adjective, start := start,
    stop := stop }

/-- `classifier.py`'s `_create_pronoun_token` (with gender). -/
def createPronounTokenV (word lem : String) (start stop : Nat) : Token :=
  let (person, number, case) := analyzePronoun lem
  { text := word, lem := lem, pos := POS.pronoun, start := start,
    stop := stop, person := some person, number := some number,
    case := some case, gender := some (getPronounGender lem),
    features := { pronounType := some "personal" } }

/-- `parser.py`'s `_create_pronoun_token` (no gender). -/
def createPronounTokenP (word lem : String) (start stop : Nat) : Token :=
  let (person, number, case) := analyzePronoun lem
  { text := word, lem := lem, pos := POS.pronoun, start := start,
    stop := stop, person := some person, number := some number,
    case := some case, features := { pronounType := some "personal" } }

/-- `classifier.py`'s `_create_possessive_token` (with the gender/number
table and person lookup for possessive pronouns). -/
def createPossessiveTokenV (word lem base : String) (_is_possessive : Bool)
    (start stop : Nat) : Token :=
  if inSet lem POSSESSIVE_PRONOUNS then
    let gn : PGender × PNumber :=
      if lem = "my" || lem = "mine" then (.neuter, .singular)
      else if lem = "your" || lem = "yours" then (.neuter, .singular)
      else if lem = "his" then (.masculine, .singular)
      else if lem = "her" || lem = "hers" then (.feminine, .singular)
      else if lem = "its" then (.neuter, .singular)
      else if lem = "our" || lem = "ours" then (.neuter, .plural)
      else if lem = "their" || lem = "theirs" then (.neuter, .plural)
      else (.neuter, .singular)
    { text := word, lem := lem, pos := POS.pronoun, start := start,
      stop := stop, case := some .possessive, gender := some gn.1,
      number := some gn.2, person := some (getPersonFromPronoun lem),
      features := { pronounType := some "possessive" } }
  else
    { text := word, lem := base, pos := POS.noun, start := start,
      stop := stop, case := some .possessive,
      features := { base := some base } }

/-- `parser.py`'s `_create_possessive_token` (no gender/number/person for
possessive pronouns). -/
def createPossessiveTokenP (word lem base : String) (_is_possessive : Bool)
    (start stop : Nat) : Token :=
  if inSet lem POSSESSIVE_PRONOUNS then
    { text := word, lem := lem, pos := POS.pronoun, start := start,
      stop := stop, case := some .possessive,
      features := { pronounType := some "possessive" } }
  else
    { text := word, lem := base, pos := POS.noun, start := start,
      stop := stop, case := some .possessive,
      features := { base := some base } }

/-- Preceding-word trigger set for "like" as a noun
(`_is_like_noun_context`). -/
def likeNounContexts : List String :=
  ["my", "your", "his", "her", "its", "our", "their", "mine", "yours",
   "hers", "ours", "theirs", "the", "a", "an", "this", "that", "these",
   "those"]

/-- Preceding-word trigger set for "work" as a noun
(`_is_work_noun_context`). -/
def workNounContexts : List String :=
  ["the", "a", "an", "this", "that", "these", "those", "my", "your", "his",
   "her", "its", "our", "their", "mine", "yours", "hers", "ours", "theirs",
   "hard", "good", "bad", "great", "important", "difficult", "easy"]

/-- Preceding-word trigger set for "wrong" as a noun
(`_is_wrong_noun_context`). -/
def wrongNounContexts : List String :=
  ["the", "a", "an", "this", "that", "these", "those", "my", "your", "his",
   "her", "its", "our", "their", "mine", "yours", "hers", "ours", "theirs"]

/-- Loop body of the `_is_*_noun_context` helpers: scan the context for an
occurrence of `target` at position `i > 0` whose predecessor is in the
trigger set. -/
def ctxScan (target : String) (triggers : List String) :
    List String → String → Bool
  | [], _ => false
  | w :: rest, prev =>
    if pyLower w = target ∧ inSet (pyLower prev) triggers then true
    else ctxScan target triggers rest w

/-- `_is_like_noun_context` / `_is_work_noun_context` /
`_is_wrong_noun_context`, shared shape. -/
def isNounContext (target : String) (triggers : List String) :
    Option (List String) → Bool
  | none => false
  | some [] => false
  | some (w :: rest) => ctxScan target triggers rest w

/-- `classifier.py`'s `PartOfSpeechClassifier.classify` (default lexicon,
optional context). -/
def classifierClassify (word : String) (start stop : Nat)
    (context : Option (List String)) : Token :=
  let lem := pyLower word
  let sp := strip_possessive lem
  let base := sp.1
  let is_possessive := sp.2
  if isClassifierPunct word then
    { text := word, lem := word, pos := POS.punctuation, start := start,
      stop := stop }
  else if inSet lem ARTICLES then
    createArticleToken word lem start stop
  else if inSet lem POSSESSIVE_PRONOUNS || is_possessive then
    createPossessiveTokenV word lem base is_possessive start stop
  else if inSet lem PERSONAL_PRONOUNS then
    createPronounTokenV word lem start stop
  else if inSet lem DEMONSTRATIVE_PRONOUNS then
    createDemonstrativeToken word lem start stop
  else if inSet lem RELATIVE_PRONOUNS then
    createRelativePronounToken word lem start stop
  else if inSet lem COORDINATING_CONJUNCTIONS ||
      inSet lem SUBORDINATING_CONJUNCTIONS then
    createConjunctionToken word lem start stop
  else if inSet lem PREPOSITIONS then
    if lem = "like" ∧ isNounContext "like" likeNounContexts context then
      createNounToken word lem is_possessive start stop
    else createPrepositionToken word lem start stop
  else if inSet lem INTERJECTIONS then
    createInterjectionToken word lem start stop
  else if isVerbLemma lem then
    if lem = "work" ∧ isNounContext "work" workNounContexts context then
      createNounToken word lem is_possessive start stop
    else createVerbToken word lem start stop
  else if isAdverbLemma lem then
    createAdverbToken word lem start stop
  else if inSet lem COMMON_ADJECTIVES then
    if lem = "wrong" ∧ isNounContext "wrong" wrongNounContexts context then
      createNounToken word lem is_possessive start stop
    else createAdjectiveToken word lem start stop
  else if inSet lem COMMON_NOUNS then
    createNounToken word lem is_possessive start stop
  else if adjSuffixMatch ADJ_SUFFIXES_UTILS lem then
    createAdjectiveToken word lem start stop
  else
    createNounToken word lem is_possessive start stop

/-- `parser.py`'s `PartOfSpeechClassifier.classify` (default lexicon; the
monolithic copy checks personal pronouns before possessives, has no
context overrides, and uses the suffix list with `ary`). -/
def parserClassify (word : String) (start stop : Nat) : Token :=
  let lem := pyLower word
  let sp := strip_possessive lem
  let base := sp.1
  let is_possessive := sp.2
  if isClassifierPunct word then
    { text := word, lem := word, pos := POS.punctuation, start := start,
      stop := stop }
  else if inSet lem ARTICLES then
    createArticleToken word lem start stop
  else if inSet lem PERSONAL_PRONOUNS then
    createPronounTokenP word lem start stop
  else if inSet lem POSSESSIVE_PRONOUNS || is_possessive then
    createPossessiveTokenP word lem base is_possessive start stop
  else if inSet lem DEMONSTRATIVE_PRONOUNS then
    createDemonstrativeToken word lem start stop
  else if inSet lem RELATIVE_PRONOUNS then
    createRelativePronounToken word lem start stop
  else if inSet lem COORDINATING_CONJUNCTIONS ||
      inSet lem SUBORDINATING_CONJUNCTIONS then
    createConjunctionToken word lem start stop
  else if inSet lem PREPOSITIONS then
    createPrepositionToken word lem start stop
  else if inSet lem INTERJECTIONS then
    createInterjectionToken word lem start stop
  else if isVerbLemma lem then
    createVerbToken word lem start stop
  else if isAdverbLemma lem then
    createAdverbToken word lem start stop
  else if inSet lem COMMON_ADJECTIVES then
    createAdjectiveToken word lem start stop
  else if inSet lem COMMON_NOUNS then
    createNounToken word lem is_possessive start stop
  else if adjSuffixMatch ADJ_SUFFIXES_PARSER lem then
    createAdjectiveToken word lem start stop
  else
    createNounToken word lem is_possessive start stop

/-! ### Claims C8 and C10 (classifier) -/

/-- C8, counterexample: the tokenizer emits `"-"` (and likewise brackets,
braces, quotes and dashes) as single-character punctuation tokens, but
`classify`'s punctuation pattern is only `[.,;:!?()]`, so `"-"` falls all
the way through to the default branch and is classified NOUN, not
PUNCTUATION. -/
theorem c8_dash_not_punctuation :
    (("-" : String), 0, 1) ∈ tokenize "-" ∧
    (classifierClassify "-" 0 1 none).pos = POS.noun ∧
    (classifierClassify "-" 0 1 none).pos ≠ POS.punctuation ∧
    (classifierClassify "[" 0 1 none).pos = POS.noun ∧
    (classifierClassify "’" 0 1 none).pos = POS.noun := by
  refine ⟨by decide, by decide, by decide, by decide, by decide⟩

/-- C8, amended: of the single-character punctuation tokens the tokenizer
can emit (the 21 characters of its punctuation class), exactly the eight
ASCII marks `. , ; : ! ? ( )` are classified PUNCTUATION (for any offsets
and any context); every remaining one — square brackets, curly braces,
straight and curly quotes, hyphens, en/em dashes — falls through to the
default branch and is classified NOUN. -/
theorem c8_ascii_marks_punctuation (c : Char)
    (h : c ∈ punctClassChars) (start stop : Nat)
    (context : Option (List String)) :
    (c ∈ PUNCT_CLASSIFY_CHARS →
      (classifierClassify (String.mk [c]) start stop context).pos =
        POS.punctuation) ∧
    (c ∉ PUNCT_CLASSIFY_CHARS →
      (classifierClassify (String.mk [c]) start stop context).pos =
        POS.noun) := by
  fin_cases h <;>
    first
      | exact ⟨fun _ => rfl, fun hn => absurd (by decide) hn⟩
      | exact ⟨fun hc => absurd hc (by decide), fun _ => rfl⟩

/-- Witness for `c8_ascii_marks_punctuation`: `'.'` is PUNCTUATION, the
em dash `'—'` is NOUN. -/
theorem c8_ascii_marks_punctuation_witness :
    (classifierClassify (String.mk ['.']) 0 1 none).pos = POS.punctuation ∧
    (classifierClassify (String.mk ['—']) 0 1 none).pos = POS.noun :=
  ⟨(c8_ascii_marks_punctuation '.' (by decide) 0 1 none).1 (by decide),
   (c8_ascii_marks_punctuation '—' (by decide) 0 1 none).2 (by decide)⟩

/-- C10, confirmed: `strip_possessive` recognises exactly the ASCII
apostrophe endings, so a Unicode-apostrophe possessive like `"John’s"` —
which the tokenizer deliberately keeps as one token — is not stripped and
is classified as a plain (non-possessive) noun, while the ASCII variant
`"John's"` is stripped and becomes a possessive noun. -/
theorem c10_unicode_possessive_not_recognised :
    (∀ w : String, (strip_possessive w).2 = true ↔
      (pyEndsWith w "'s" = true ∨ pyEndsWith w "'" = true)) ∧
    tokenize "John’s" = [("John’s", 0, 6)] ∧
    (classifierClassify "John’s" 0 6 none).lem = "john’s" ∧
    (classifierClassify "John’s" 0 6 none).case = some PCase.nominative ∧
    (classifierClassify "John’s" 0 6 none).pos = POS.noun ∧
    (classifierClassify "John's" 0 6 none).case = some PCase.possessive ∧
    (classifierClassify "John's" 0 6 none).lem = "john" := by
  refine ⟨fun w => ?_, by decide, by decide, by decide, by decide, by decide,
    by decide⟩
  unfold strip_possessive
  by_cases h1 : pyEndsWith w "'s"
  · simp [h1]
  · by_cases h2 : pyEndsWith w "'" <;> simp [h1, h2]

/-- Witness for `c10_unicode_possessive_not_recognised` (its first
conjunct quantifies over all words): instantiated at `"John’s"`, whose
Unicode apostrophe ending is not an ASCII possessive marker. -/
theorem c10_unicode_possessive_witness :
    (strip_possessive "John’s").2 = false ∧
    (strip_possessive "John's").2 = true := by
  constructor
  · have h := (c10_unicode_possessive_not_recognised).1 "John’s"
    revert h
    decide
  · have h := (c10_unicode_possessive_not_recognised).1 "John's"
    revert h
    decide

/-! ### Syntactic analyzer

The `SyntacticParser` methods `_looks_adverb`, `_detect_sentence_type`,
`_determine_tense`, `parse`, `_find_verb_phrase`, `_find_subject`,
`_find_object`, `_determine_voice` and `_is_base_verb_shape` are character
for character identical between `kirkham/syntactic.py` and
`kirkham/parser.py` (verified by textual diff), so each is embedded once
and used by both pipelines. -/

/-- `SyntacticParser.ADVERB_LIKE`. -/
def ADVERB_LIKE : List String :=
  ["very", "quite", "rather", "too", "so", "more", "most", "less", "least",
   "really", "extremely", "fairly", "pretty", "highly", "incredibly",
   "particularly"]

/-- `SyntacticParser._looks_adverb`. -/
def looksAdverb (t : Token) : Bool :=
  inSet t.lem ADVERB_LIKE || t.pos = POS.adverb || pyEndsWith t.lem "ly"

/-- The irregular past-tense set inside `_is_base_verb_shape`. -/
def SHAPE_IRREGULAR_PAST : List String :=
  ["went", "came", "saw", "made", "took", "got", "gave", "found", "knew",
   "thought", "told", "became", "left", "felt", "brought", "began", "ran",
   "held", "heard", "kept", "meant", "met", "paid", "read", "said", "sat",
   "sent", "stood", "understood", "wrote", "ate", "fell", "grew", "threw",
   "wore", "won", "spoke", "broke", "chose", "drove", "rode", "sold",
   "taught", "caught", "fought", "bought", "sought"]

/-- `SyntacticParser._is_base_verb_shape`.  In the source, the `-ed` branch
returns `False` in both of its sub-cases, and everything after the `-s`
branch returns `True` whether or not the lemma is a known base verb; the
embedding keeps the observable structure. -/
def isBaseVerbShape (lem : String) : Bool :=
  if inSet lem AUXILIARY_BE || inSet lem AUXILIARY_HAVE ||
      inSet lem AUXILIARY_DO || inSet lem AUXILIARY_GET ||
      inSet lem MODAL_VERBS then false
  else if inSet lem SHAPE_IRREGULAR_PAST then false
  else if pyEndsWith lem "ing" then false
  else if pyEndsWith lem "ed" then false
  else if pyEndsWith lem "s" &&
      !(pyEndsWith lem "ss" || pyEndsWith lem "us" || pyEndsWith lem "as" ||
        pyEndsWith lem "is" || pyEndsWith lem "ness") then
    let base := pyDropRight lem 1
    if inSet base COMMON_TRANSITIVE_VERBS ||
        inSet base COMMON_INTRANSITIVE_VERBS then false
    else if pyEndsWith lem "es" &&
        (inSet (pyDropRight lem 2) COMMON_TRANSITIVE_VERBS ||
         inSet (pyDropRight lem 2) COMMON_INTRANSITIVE_VERBS) then false
    else true
  else true

/-- `SyntacticParser._detect_sentence_type`. -/
def detectSentenceType (tokens : List Token) : PSentenceType :=
  match tokens with
  | [] => PSentenceType.declarative
  | t0 :: _ =>
    let last_token := tokens.getLastD default
    if last_token.text = "?" then PSentenceType.interrogative
    else if last_token.text = "!" then
      if (t0.lem = "what" || t0.lem = "how") ∧ tokens.length > 2 ∧
          ((tokens.getD 1 default).pos = POS.article ∨
           (tokens.getD 1 default).pos = POS.adjective) then
        PSentenceType.exclamatory
      else PSentenceType.imperative
    else if inSet t0.lem ["who", "what", "where", "when", "why", "how",
        "which", "whom", "whose"] then PSentenceType.interrogative
    else if tokens.length ≥ 2 ∧ t0.pos = POS.verb ∧
        (inSet t0.lem AUXILIARY_BE ∨ inSet t0.lem AUXILIARY_HAVE ∨
         inSet t0.lem AUXILIARY_DO ∨ inSet t0.lem MODAL_VERBS) ∧
        (tokens.getD 1 default).pos = POS.pronoun then
      PSentenceType.interrogative
    else if t0.pos = POS.verb ∧ isBaseVerbShape t0.lem then
      PSentenceType.imperative
    else PSentenceType.declarative

/-- The irregular past set inside `_determine_tense`. -/
def TENSE_IRREGULAR_PAST : List String :=
  ["went", "came", "saw", "made", "took", "got", "gave", "found", "knew",
   "thought", "told", "became", "left", "felt", "brought", "began", "ran",
   "held", "heard", "kept", "meant", "met", "paid", "read", "said", "sat",
   "sent", "stood", "understood", "wrote"]

/-- `SyntacticParser._determine_tense`.  In the source the past branch
checks the irregular table and "was"/"were" but returns PAST on every path
of that branch; the embedding keeps the branch as one PAST result and
keeps `TENSE_IRREGULAR_PAST` for reference. -/
def determineTense (vp : Phrase) : PTense :=
  if vp.tokens.isEmpty then PTense.present
  else
    let lemmas := vp.tokens.map (·.lem)
    if lemmas.contains "will" || lemmas.contains "shall" then
      if lemmas.contains "have" || lemmas.contains "has" then
        PTense.futurePerfect
      else PTense.future
    else if (lemmas.contains "have" || lemmas.contains "has" ||
        lemmas.contains "had") &&
        vp.tokens.any (fun t => t.features.participle = some "past") then
      if lemmas.contains "had" then PTense.pastPerfect
      else PTense.presentPerfect
    else
      let main_verb := vp.tokens.getLastD default
      if pyEndsWith main_verb.lem "ed" || is_past_participle main_verb.lem
      then PTense.past
      else if optBoolTruthy main_verb.features.sg3 ||
          pyEndsWith main_verb.text "s" then PTense.present
      else if main_verb.lem = "am" || main_verb.lem = "is" ||
          main_verb.lem = "are" then PTense.present
      else PTense.present

/-- Python `list.index` (first position of an equal element; the call sites
always pass an element of the list). -/
def indexOfTok (tokens : List Token) (x : Token) : Nat :=
  tokens.findIdx (fun t => decide (t = x))

/-- The `while j + 1 < len(tokens) and tokens[j+1].pos == VERB: j += 1`
loop of `_find_verb_phrase`: `rest` is the list after index `j`. -/
def vpEnd : List Token → Nat → Nat
  | [], j => j
  | t :: rest, j => if t.pos = POS.verb then vpEnd rest (j + 1) else j

/-- `SyntacticParser._find_verb_phrase`. -/
def findVerbPhrase (tokens : List Token) : Option Phrase :=
  match tokens.findIdx? (fun t => t.pos = POS.verb) with
  | none => none
  | some i =>
    let j := vpEnd (tokens.drop (i + 1)) i
    some { tokens := (tokens.drop i).take (j + 1 - i), phrase_type := "VP",
           head_index := j - i }

/-- The backward scan of `_find_subject`
(`for i in range(verb_start_idx - 1, -1, -1)`): called with `k`, examines
indices `k-1, k-2, …, 0` for a NOUN/PRONOUN. -/
def findSubjectAnchor (tokens : List Token) : Nat → Option Nat
  | 0 => none
  | k + 1 =>
    if (tokens.getD k default).pos = POS.noun ∨
        (tokens.getD k default).pos = POS.pronoun then some k
    else findSubjectAnchor tokens k

/-- The `while j >= 0` extension loop of `_find_subject`: `si` is the
current `start_idx`, and the second argument `k` means index `k - 1` is
examined next. -/
def extendSubject (tokens : List Token) : Nat → Nat → Nat
  | si, 0 => si
  | si, k + 1 =>
    let t := tokens.getD k default
    if t.pos = POS.preposition then si
    else if t.case = some PCase.possessive ∨ t.pos = POS.article ∨
        t.pos = POS.adjective ∨ looksAdverb t then
      extendSubject tokens k k
    else si

/-- `SyntacticParser._find_subject`. -/
def findSubject (tokens : List Token) (vp : Phrase) : Option Phrase :=
  let verb_start_idx := indexOfTok tokens (vp.tokens.headD default)
  match findSubjectAnchor tokens verb_start_idx with
  | none => none
  | some i =>
    let start_idx := extendSubject tokens i i
    some { tokens := (tokens.drop start_idx).take (i + 1 - start_idx),
           phrase_type := "NP", head_index := i - start_idx }

/-- The forward collection loop of `_find_object`; `i` is the absolute
index of the head of the remaining list. -/
def findObjectLoop :
    List Token → Nat → Option Nat → Option Nat → Option Nat × Option Nat
  | [], _, si, ei => (si, ei)
  | t :: rest, i, si, ei =>
    if t.pos = POS.punctuation ∨ t.pos = POS.conjunction then (si, ei)
    else if t.pos = POS.preposition ∧ si = none then (si, ei)
    else if t.pos = POS.article ∨ t.pos = POS.adjective ∨
        t.pos = POS.noun ∨ t.pos = POS.pronoun ∨ looksAdverb t then
      findObjectLoop rest (i + 1) (if si = none then some i else si) (some i)
    else if si ≠ none then (si, ei)
    else findObjectLoop rest (i + 1) si ei

/-- Head selection of `_find_object`: index of the last NOUN/PRONOUN in
the object tokens, defaulting to 0. -/
def objHeadIdx (ts : List Token) : Nat :=
  ts.enum.foldl
    (fun acc p =>
      if p.2.pos = POS.noun ∨ p.2.pos = POS.pronoun then p.1 else acc) 0

/-- `SyntacticParser._find_object`. -/
def findObject (tokens : List Token) (vp : Phrase) : Option Phrase :=
  let verb_end_idx := indexOfTok tokens (vp.tokens.getLastD default)
  let r := findObjectLoop (tokens.drop (verb_end_idx + 1))
    (verb_end_idx + 1) none none
  match r with
  | (some si, some ei) =>
    let object_tokens := (tokens.drop si).take (ei + 1 - si)
    some { tokens := object_tokens, phrase_type := "NP",
           head_index := objHeadIdx object_tokens }
  | _ => none

/-- `SyntacticParser._determine_voice`.  (`if not verb_phrase` in the
source tests object truthiness and can never fire for an actual `Phrase`
instance; the `if verb_phrase.tokens else -1` ternary for the lookahead is
modelled by the emptiness test.) -/
def determineVoice (detect_get_passive : Bool) (tokens : List Token)
    (vp : Phrase) (obj : Option Phrase) : PVoice :=
  let is_vbn := fun (t : Token) => t.features.participle = some "past"
  let has_aux := vp.tokens.any (fun t =>
    t.features.auxiliary = some "be" ||
    (detect_get_passive && t.features.auxiliary = some "get"))
  let has_vbn_in_vp := vp.tokens.any is_vbn
  let vbn_lookahead :=
    if vp.tokens.isEmpty then false
    else
      let vp_last_idx := indexOfTok tokens (vp.tokens.getLastD default)
      ((tokens.drop (vp_last_idx + 1)).take 2).any is_vbn
  if has_aux ∧ (has_vbn_in_vp ∨ vbn_lookahead) then PVoice.passive
  else if obj.isSome ∨
      vp.tokens.any (fun t => optBoolTruthy t.features.transitive) then
    PVoice.active
  else PVoice.neuter

/-! ### Monolithic pipeline configuration (`parser.py`'s `ParserConfig`) -/

/-- `parser.py`'s `ParserConfig` dataclass (13 fields; unlike
`models.ParserConfig` it has no per-rule flags beyond rules 3/4/12/20). -/
structure PParserConfig where
  enforce_rule_20_strict : Bool := true
  enforce_rule_12_strict : Bool := true
  enforce_rule_4_strict : Bool := true
  enforce_rule_3_strict : Bool := true
  detect_get_passive : Bool := true
  detect_been_passive : Bool := true
  detect_infinitives : Bool := true
  detect_sentence_type : Bool := true
  detect_tense : Bool := true
  allow_informal_pronouns : Bool := false
  allow_sentence_fragments : Bool := false
  max_parse_depth : Nat := 100
  enable_extended_validation : Bool := true
  deriving DecidableEq, Repr

/-- `parser.py`'s `DEFAULT_CONFIG = ParserConfig()`. -/
def DEFAULT_PCONFIG : PParserConfig := {}

/-! ### Monolithic grammar rule validator (`parser.py`'s
`GrammarRuleValidator`) -/

/-- `_finite_verb_of_vp` (identical in `parser.py` and `validator.py`):
modal, else tensed non-participle be/do/have auxiliary, else `-s`/`-ed`
verb, else last token of the chain. -/
def finiteVerbOfVp (vp : Phrase) : Token :=
  match vp.tokens.find? (fun t => optBoolTruthy t.features.modal) with
  | some t => t
  | none =>
    match vp.tokens.find? (fun t =>
        (t.features.auxiliary = some "be" ||
         t.features.auxiliary = some "do" ||
         t.features.auxiliary = some "have") &&
        !(optStrTruthy t.features.participle)) with
    | some t => t
    | none =>
      match vp.tokens.find? (fun t =>
          t.pos = POS.verb &&
          (pyEndsWith t.text "s" || pyEndsWith t.text "ed")) with
      | some t => t
      | none => vp.tokens.getLastD default

/-- `parser.py`'s `_check_agreement` (the monolithic copy: only the
be-verb special cases, then the generic 3rd-singular `-s` logic).  The
inner be-branch falls through for "be"/"been"/"being". -/
def checkAgreementP (subject verb : Token) : Bool :=
  let subj_number := subject.number.getD PNumber.singular
  let subj_person := subject.person.getD PPerson.third
  let beResult : Option Bool :=
    if inSet verb.lem AUXILIARY_BE then
      if verb.lem = "am" then
        some (subj_person = PPerson.first ∧ subj_number = PNumber.singular)
      else if verb.lem = "is" then
        some (subj_person = PPerson.third ∧ subj_number = PNumber.singular)
      else if verb.lem = "are" then
        some (subj_number = PNumber.plural ∨ subj_person = PPerson.second)
      else if verb.lem = "was" then
        some (subj_number = PNumber.singular ∧ subj_person ≠ PPerson.second)
      else if verb.lem = "were" then
        some (subj_number = PNumber.plural ∨ subj_person = PPerson.second)
      else none
    else none
  match beResult with
  | some b => b
  | none =>
    if subj_person = PPerson.third ∧ subj_number = PNumber.singular then
      pyEndsWith verb.text "s" || verb.features.sg3.getD false
    else
      !(pyEndsWith verb.text "s") || inSet verb.lem AUXILIARY_BE

/-- `_check_rule_3` (identical in both validators). -/
def checkRule3P (pr : ParseResult) : ParseResult :=
  let has_subject := pr.subject.isSome
  let pr := { pr with
    rule_checks := dictSet pr.rule_checks "RULE_3" has_subject }
  match pr.verb_phrase with
  | some vp =>
    if !has_subject then
      let f : Flag :=
        { rule := "RULE_3",
          message := "Verb phrase found without subject (nominative)",
          span := some { start := (vp.tokens.headD default).start,
                         stop := (vp.tokens.getLastD default).stop } }
      { pr with
        flags := pr.flags ++ [f],
        errors := pr.errors ++
          ["RULE 3 violation: Verb phrase found without subject (nominative)"] }
    else pr
  | none => pr

/-- `parser.py`'s `_check_rule_4`: early return when subject or verb
phrase is absent; otherwise compare the subject head with the finite-verb
anchor. -/
def checkRule4P (pr : ParseResult) : ParseResult :=
  match pr.subject, pr.verb_phrase with
  | some subj, some vp =>
    let subject_head := subj.head_token
    let verb_to_check := finiteVerbOfVp vp
    let agrees := checkAgreementP subject_head verb_to_check
    let pr := { pr with rule_checks := dictSet pr.rule_checks "RULE_4" agrees }
    if !agrees then
      let f : Flag :=
        { rule := "RULE_4",
          message := "Verb '" ++ verb_to_check.text ++
            "' does not agree with subject '" ++ subject_head.text ++
            "' in number/person",
          span := some { start := min subject_head.start verb_to_check.start,
                         stop := max subject_head.stop verb_to_check.stop } }
      { pr with
        flags := pr.flags ++ [f],
        errors := pr.errors ++ ["RULE 4 violation: Verb '" ++
          verb_to_check.text ++ "' does not agree with subject '" ++
          subject_head.text ++ "' in number/person"] }
    else pr
  | _, _ => pr

/-- `while j < len(tokens) and tokens[j].pos in P: j += 1` as an index
computation. -/
def skipWhileIdx (p : Token → Bool) (tokens : List Token) (j : Nat) : Nat :=
  j + ((tokens.drop j).takeWhile p).length

/-- `_check_rule_12` (identical in both validators): each possessive-case
token must be followed — skipping articles and adjectives — by a noun;
otherwise a RULE_12 flag.  Found pairs set the
`rule_12_possessive_governed` entry and a note. -/
def rule12Step (toks : List Token) (n : Nat) (acc : ParseResult × Nat)
    (p : Nat × Token) : ParseResult × Nat :=
  if p.2.case = some PCase.possessive then
    let j := skipWhileIdx
      (fun t => t.pos = POS.article || t.pos = POS.adjective) toks (p.1 + 1)
    if j < n ∧ (toks.getD j default).pos = POS.noun then (acc.1, acc.2 + 1)
    else
      let f : Flag :=
        { rule := "RULE_12",
          message := "Possessive '" ++ p.2.text ++ "' not followed by noun",
          span := some { start := p.2.start, stop := p.2.stop } }
      ({ acc.1 with
          flags := acc.1.flags ++ [f],
          warnings := acc.1.warnings ++ ["RULE 12: Possessive '" ++
            p.2.text ++ "' not followed by noun"] }, acc.2)
  else acc

def checkRule12P (pr : ParseResult) : ParseResult :=
  let n := pr.tokens.length
  let toks := pr.tokens
  let r := toks.enum.foldl (rule12Step toks n) (pr, 0)
  if r.2 ≠ 0 then
    { r.1 with
      rule_checks := dictSet r.1.rule_checks "rule_12_possessive_governed"
        true,
      notes := r.1.notes ++ ["Found " ++ toString r.2 ++
        " possessive relationship(s)"] }
  else r.1

/-- The inner `for j in range(i+1, len)` loop of `parser.py`'s
`_check_rule_18`: a noun reachable across adjectives/articles only. -/
def rule18HasNoun : List Token → Bool
  | [] => false
  | t :: rest =>
    if t.pos = POS.noun then true
    else if t.pos = POS.adjective ∨ t.pos = POS.article then
      rule18HasNoun rest
    else false

def rule18Step (acc : ParseResult) (p : Nat × Token) : ParseResult :=
  if p.2.pos = POS.adjective then
    if rule18HasNoun (acc.tokens.drop (p.1 + 1)) then acc
    else
      let f : Flag :=
        { rule := "RULE_18",
          message := "Adjective '" ++ p.2.text ++
            "' may lack noun to qualify",
          span := some { start := p.2.start, stop := p.2.stop } }
      { acc with
        flags := acc.flags ++ [f],
        warnings := acc.warnings ++ ["RULE 18: Adjective '" ++ p.2.text ++
          "' may lack noun to qualify"] }
  else acc

/-- `parser.py`'s `_check_rule_18`: every adjective not followed (across
adjectives/articles) by a noun is flagged.  (The monolithic copy has no
predicative/linking-verb handling, unlike `validator.py`.) -/
def checkRule18P (pr : ParseResult) : ParseResult :=
  pr.tokens.enum.foldl rule18Step pr

/-- `parser.py`'s `_check_rule_20`: an explicitly transitive, active-voice
verb phrase records whether an object is present; a missing object is
flagged. -/
def checkRule20P (pr : ParseResult) : ParseResult :=
  match pr.verb_phrase with
  | none => pr
  | some vp =>
    let is_transitive := vp.tokens.any (fun t => t.features.transitive.getD false)
    if is_transitive ∧ pr.voice = some PVoice.active then
      let has_object := pr.object_phrase.isSome
      let pr := { pr with
        rule_checks := dictSet pr.rule_checks "RULE_20" has_object }
      if !has_object then
        let f : Flag :=
          { rule := "RULE_20",
            message := "Transitive verb may require object (objective case)",
            span := some { start := (vp.tokens.headD default).start,
                           stop := (vp.tokens.getLastD default).stop } }
        { pr with
          flags := pr.flags ++ [f],
          warnings := pr.warnings ++
            ["RULE 20: Transitive verb may require object (objective case)"] }
      else pr
    else pr

/-- The inner window scan of `parser.py`'s `_check_rule_31` (up to 3
tokens after the preposition, stopping at punctuation). -/
def rule31Found : List Token → Bool
  | [] => false
  | t :: rest =>
    if t.pos = POS.noun ∨ t.pos = POS.pronoun then true
    else if t.pos = POS.punctuation then false
    else rule31Found rest

def rule31Step (acc : ParseResult) (p : Nat × Token) : ParseResult :=
  if p.2.pos = POS.preposition then
    if rule31Found ((acc.tokens.drop (p.1 + 1)).take 3) then acc
    else
      let f : Flag :=
        { rule := "RULE_31",
          message := "Preposition '" ++ p.2.text ++ "' lacks object",
          span := some { start := p.2.start, stop := p.2.stop } }
      { acc with
        flags := acc.flags ++ [f],
        warnings := acc.warnings ++ ["RULE 31: Preposition '" ++
          p.2.text ++ "' lacks object"] }
  else acc

/-- `parser.py`'s `_check_rule_31`: each preposition must find a
noun/pronoun within the next three tokens (punctuation cuts the window). -/
def checkRule31P (pr : ParseResult) : ParseResult :=
  pr.tokens.enum.foldl rule31Step pr

def prepObjectStep (acc : ParseResult) (p : Nat × Token) : ParseResult :=
  if p.2.pos = POS.preposition then
    let k := skipWhileIdx
      (fun t => t.pos = POS.article || t.pos = POS.adjective)
      acc.tokens (p.1 + 1)
    if k < acc.tokens.length ∧
        (acc.tokens.getD k default).pos = POS.pronoun ∧
        (acc.tokens.getD k default).case = some PCase.nominative then
      let f : Flag :=
        { rule := "RULE_31",
          message := "Preposition '" ++ p.2.text ++
            "' should govern objective case; found nominative '" ++
            (acc.tokens.getD k default).text ++ "'",
          span := some { start := (acc.tokens.getD k default).start,
                         stop := (acc.tokens.getD k default).stop } }
      { acc with flags := acc.flags ++ [f] }
    else acc
  else acc

/-- `_check_prep_object_case` (identical in both validators): a nominative
pronoun right after a preposition (skipping articles/adjectives) is
flagged under RULE_31. -/
def checkPrepObjectCase (pr : ParseResult) : ParseResult :=
  pr.tokens.enum.foldl prepObjectStep pr

/-- `_check_copula_predicative_case` (identical in both validators): an
objective-case pronoun immediately after a be-auxiliary verb phrase is
flagged — with rule id RULE_4 — unless `allow_informal_pronouns`. -/
def checkCopulaPredicativeCase (allow_informal_pronouns : Bool)
    (pr : ParseResult) : ParseResult :=
  match pr.verb_phrase with
  | none => pr
  | some vp =>
    if !(vp.tokens.any (fun t => t.features.auxiliary = some "be")) then pr
    else
      let start := indexOfTok pr.tokens (vp.tokens.getLastD default) + 1
      if start < pr.tokens.length ∧
          (pr.tokens.getD start default).pos = POS.pronoun ∧
          (pr.tokens.getD start default).case = some PCase.objective ∧
          !allow_informal_pronouns then
        let f : Flag :=
          { rule := "RULE_4",
            message := "After a form of 'to be', use nominative case; " ++
              "found '" ++ (pr.tokens.getD start default).text ++ "'",
            span := some { start := (pr.tokens.getD start default).start,
                           stop := (pr.tokens.getD start default).stop } }
        { pr with flags := pr.flags ++ [f] }
      else pr

/-- `gov_inf_verbs` (identical in both validators). -/
def GOV_INF_VERBS : List String :=
  ["want", "wants", "wanted", "wish", "wishes", "wished", "expect",
   "expects", "expected", "ask", "asks", "asked", "tell", "tells", "told",
   "permit", "permits", "permitted", "allow", "allows", "allowed", "cause",
   "causes", "caused", "compel", "compels", "compelled", "advise",
   "advises", "advised", "encourage", "encourages", "encouraged"]

def govInfStep (acc : ParseResult) (p : Nat × Token) : ParseResult :=
  if pyLower p.2.text = "to" ∧ p.1 ≥ 2 then
    let subj := acc.tokens.getD (p.1 - 1) default
    let gov := acc.tokens.getD (p.1 - 2) default
    if subj.pos = POS.pronoun ∧ gov.pos = POS.verb ∧
        inSet gov.lem GOV_INF_VERBS ∧
        subj.case = some PCase.nominative then
      let f : Flag :=
        { rule := "RULE_20",
          message := "Subject of governed infinitive after '" ++
            gov.text ++ "' should be objective; found '" ++ subj.text ++
            "'",
          span := some { start := subj.start, stop := subj.stop } }
      { acc with flags := acc.flags ++ [f] }
    else acc
  else acc

/-- `_check_governed_infinitives` (identical in both validators): a
nominative pronoun just before "to", governed by a verb from
`GOV_INF_VERBS` two positions earlier, is flagged — with rule id
RULE_20. -/
def checkGovernedInfinitives (pr : ParseResult) : ParseResult :=
  pr.tokens.enum.foldl govInfStep pr

/-- `parser.py`'s `GrammarRuleValidator.validate`: rules 3, 4, 12, 18, 20,
31 plus the extended case checks, each behind its configuration guard. -/
def parserValidate (cfg : PParserConfig) (pr : ParseResult) : ParseResult :=
  let pr := if cfg.enforce_rule_3_strict then checkRule3P pr else pr
  let pr := if cfg.enforce_rule_4_strict then checkRule4P pr else pr
  let pr := if cfg.enforce_rule_12_strict then checkRule12P pr else pr
  let pr := if cfg.enable_extended_validation then checkRule18P pr else pr
  let pr := if cfg.enforce_rule_20_strict then checkRule20P pr else pr
  let pr := if cfg.enable_extended_validation then checkRule31P pr else pr
  if cfg.enable_extended_validation then
    checkGovernedInfinitives
      (checkCopulaPredicativeCase cfg.allow_informal_pronouns
        (checkPrepObjectCase pr))
  else pr

/-- `parser.py`'s `SyntacticParser.parse` (= what `KirkhamParser.parse`
runs): tokenize, classify, sentence type, verb phrase (early return when
absent), subject, object, voice, tense, validate. -/
def parserParse (cfg : PParserConfig) (sentence : String) : ParseResult :=
  let word_tokens := tokenize sentence
  let tokens := word_tokens.map (fun wt => parserClassify wt.1 wt.2.1 wt.2.2)
  let result : ParseResult := { tokens := tokens }
  let result := { result with notes := result.notes ++
    ["Sentence length: " ++ toString sentence.length ++ " chars, " ++
     toString tokens.length ++ " tokens"] }
  let result :=
    if cfg.detect_sentence_type then
      { result with sentence_type := some (detectSentenceType tokens) }
    else result
  match findVerbPhrase tokens with
  | none =>
    { result with warnings := result.warnings ++
        ["No finite verb found in sentence"] }
  | some vp =>
    let result := { result with verb_phrase := some vp }
    let subject := findSubject tokens vp
    let result := { result with subject := subject }
    let object_phrase := findObject tokens vp
    let result := { result with object_phrase := object_phrase }
    let voice := determineVoice cfg.detect_get_passive tokens vp object_phrase
    let result := { result with voice := some voice }
    let result :=
      if cfg.detect_tense then
        { result with tense := some (determineTense vp) }
      else result
    parserValidate cfg result

/-! ### Dictionary and per-check behaviour lemmas -/

theorem dictGet_dictSet_same (d : List (String × Bool)) (k : String)
    (v : Bool) : dictGet? (dictSet d k v) k = some v := by
  unfold dictGet? dictSet
  by_cases h : d.any (fun p => p.1 = k)
  · rw [if_pos h]
    induction d with
    | nil => simp at h
    | cons p d ih =>
      by_cases hp : p.1 = k
      · simp only [List.map_cons, if_pos hp]
        rw [List.find?_cons_of_pos _ (by simp)]
        rfl
      · simp only [List.any_cons, Bool.or_eq_true, decide_eq_true_eq] at h
        rcases h with h | h
        · exact absurd h hp
        · simp only [List.map_cons, if_neg hp]
          rw [List.find?_cons_of_neg _ (by simpa using hp)]
          exact ih (by simpa using h)
  · rw [if_neg h]
    induction d with
    | nil => simp [List.find?]
    | cons p d ih =>
      simp only [List.any_cons, Bool.or_eq_true, decide_eq_true_eq,
        not_or] at h
      simp only [List.cons_append]
      rw [List.find?_cons_of_neg _ (by simpa using h.1)]
      exact ih (by simpa using h.2)

theorem find?_key_map_set (d : List (String × Bool)) (k k' : String)
    (v : Bool) (h : k ≠ k') :
    List.find? (fun p => decide (p.1 = k))
        (d.map (fun p => if p.1 = k' then (k', v) else p)) =
      List.find? (fun p => decide (p.1 = k)) d := by
  induction d with
  | nil => rfl
  | cons p d ih =>
    by_cases hp : p.1 = k'
    · simp only [List.map_cons, if_pos hp]
      rw [List.find?_cons_of_neg _ (by simpa using Ne.symm h),
        List.find?_cons_of_neg _ (by simp [hp]; exact Ne.symm h)]
      exact ih
    · simp only [List.map_cons, if_neg hp]
      by_cases hpk : p.1 = k
      · rw [List.find?_cons_of_pos _ (by simpa using hpk),
          List.find?_cons_of_pos _ (by simpa using hpk)]
      · rw [List.find?_cons_of_neg _ (by simpa using hpk),
          List.find?_cons_of_neg _ (by simpa using hpk)]
        exact ih

theorem find?_key_append_set (d : List (String × Bool)) (k k' : String)
    (v : Bool) (h : k ≠ k') :
    List.find? (fun p => decide (p.1 = k)) (d ++ [(k', v)]) =
      List.find? (fun p => decide (p.1 = k)) d := by
  induction d with
  | nil =>
    simp only [List.nil_append]
    rw [List.find?_cons_of_neg _ (by simpa using Ne.symm h)]
  | cons p d ih =>
    simp only [List.cons_append]
    by_cases hpk : p.1 = k
    · rw [List.find?_cons_of_pos _ (by simpa using hpk),
        List.find?_cons_of_pos _ (by simpa using hpk)]
    · rw [List.find?_cons_of_neg _ (by simpa using hpk),
        List.find?_cons_of_neg _ (by simpa using hpk)]
      exact ih

theorem dictGet_dictSet_other (d : List (String × Bool)) (k k' : String)
    (v : Bool) (h : k ≠ k') :
    dictGet? (dictSet d k' v) k = dictGet? d k := by
  unfold dictGet? dictSet
  by_cases hany : d.any (fun p => p.1 = k')
  · rw [if_pos hany]
    rw [find?_key_map_set d k k' v h]
  · rw [if_neg hany]
    rw [find?_key_append_set d k k' v h]

/-- Flags added by a fold whose step only appends flags satisfying `P` and
leaves the rest of the result intact. -/
theorem foldl_flags_invariant {α : Type} (P : Flag → Prop)
    (step : ParseResult → α → ParseResult)
    (hstep : ∀ acc x f, f ∈ (step acc x).flags → f ∈ acc.flags ∨ P f) :
    ∀ (l : List α) (init : ParseResult) (f : Flag),
      f ∈ (l.foldl step init).flags → f ∈ init.flags ∨ P f := by
  intro l
  induction l with
  | nil => intro init f hf; exact Or.inl hf
  | cons x l ih =>
    intro init f hf
    rcases ih (step init x) f hf with h | h
    · exact hstep init x f h
    · exact Or.inr h

/-- A fold whose step never touches `rule_checks` preserves them. -/
theorem foldl_rc_invariant {α : Type}
    (step : ParseResult → α → ParseResult)
    (hstep : ∀ acc x, (step acc x).rule_checks = acc.rule_checks) :
    ∀ (l : List α) (init : ParseResult),
      (l.foldl step init).rule_checks = init.rule_checks := by
  intro l
  induction l with
  | nil => intro init; rfl
  | cons x l ih =>
    intro init
    simp only [List.foldl_cons]
    rw [ih (step init x), hstep]

/-- Pair-state variant of `foldl_flags_invariant` (for `_check_rule_12`). -/
theorem foldl_flags_invariant_pair {α : Type} (P : Flag → Prop)
    (step : ParseResult × Nat → α → ParseResult × Nat)
    (hstep : ∀ acc x f, f ∈ (step acc x).1.flags → f ∈ acc.1.flags ∨ P f) :
    ∀ (l : List α) (init : ParseResult × Nat) (f : Flag),
      f ∈ (l.foldl step init).1.flags → f ∈ init.1.flags ∨ P f := by
  intro l
  induction l with
  | nil => intro init f hf; exact Or.inl hf
  | cons x l ih =>
    intro init f hf
    rcases ih (step init x) f hf with h | h
    · exact hstep init x f h
    · exact Or.inr h

/-- Pair-state variant of `foldl_rc_invariant`. -/
theorem foldl_rc_invariant_pair {α : Type}
    (step : ParseResult × Nat → α → ParseResult × Nat)
    (hstep : ∀ acc x, (step acc x).1.rule_checks = acc.1.rule_checks) :
    ∀ (l : List α) (init : ParseResult × Nat),
      (l.foldl step init).1.rule_checks = init.1.rule_checks := by
  intro l
  induction l with
  | nil => intro init; rfl
  | cons x l ih =>
    intro init
    simp only [List.foldl_cons]
    rw [ih (step init x), hstep]

theorem checkRule3P_flags (pr : ParseResult) (f : Flag)
    (hf : f ∈ (checkRule3P pr).flags) : f ∈ pr.flags ∨ f.rule = "RULE_3" := by
  unfold checkRule3P at hf
  dsimp only [] at hf
  split at hf
  · split at hf
    · rcases List.mem_append.mp hf with h | h
      · exact Or.inl h
      · simp only [List.mem_singleton] at h
        exact Or.inr (by rw [h])
    · exact Or.inl hf
  · exact Or.inl hf

theorem checkRule3P_rc (pr : ParseResult) (k : String) (h : k ≠ "RULE_3") :
    dictGet? (checkRule3P pr).rule_checks k = dictGet? pr.rule_checks k := by
  unfold checkRule3P
  dsimp only []
  split
  · split
    · exact dictGet_dictSet_other _ _ _ _ h
    · exact dictGet_dictSet_other _ _ _ _ h
  · exact dictGet_dictSet_other _ _ _ _ h

theorem checkRule4P_flags (pr : ParseResult) (f : Flag)
    (hf : f ∈ (checkRule4P pr).flags) : f ∈ pr.flags ∨ f.rule = "RULE_4" := by
  unfold checkRule4P at hf
  dsimp only [] at hf
  split at hf
  · split at hf
    · rcases List.mem_append.mp hf with h | h
      · exact Or.inl h
      · simp only [List.mem_singleton] at h
        exact Or.inr (by rw [h])
    · exact Or.inl hf
  · exact Or.inl hf

theorem checkRule4P_rc (pr : ParseResult) (k : String) (h : k ≠ "RULE_4") :
    dictGet? (checkRule4P pr).rule_checks k = dictGet? pr.rule_checks k := by
  unfold checkRule4P
  dsimp only []
  split
  · split
    · exact dictGet_dictSet_other _ _ _ _ h
    · exact dictGet_dictSet_other _ _ _ _ h
  · rfl

theorem rule12Step_flags (toks : List Token) (n : Nat)
    (acc : ParseResult × Nat) (p : Nat × Token) (f : Flag)
    (hf : f ∈ (rule12Step toks n acc p).1.flags) :
    f ∈ acc.1.flags ∨ f.rule = "RULE_12" := by
  unfold rule12Step at hf
  dsimp only [] at hf
  split at hf
  · split at hf
    · exact Or.inl hf
    · rcases List.mem_append.mp hf with h | h
      · exact Or.inl h
      · simp only [List.mem_singleton] at h
        exact Or.inr (by rw [h])
  · exact Or.inl hf

theorem rule12Step_rc (toks : List Token) (n : Nat)
    (acc : ParseResult × Nat) (p : Nat × Token) :
    (rule12Step toks n acc p).1.rule_checks = acc.1.rule_checks := by
  unfold rule12Step
  dsimp only []
  split
  · split <;> rfl
  · rfl

theorem checkRule12P_flags (pr : ParseResult) (f : Flag)
    (hf : f ∈ (checkRule12P pr).flags) : f ∈ pr.flags ∨ f.rule = "RULE_12" := by
  unfold checkRule12P at hf
  dsimp only [] at hf
  split at hf
  · exact foldl_flags_invariant_pair _ _
      (rule12Step_flags pr.tokens pr.tokens.length) pr.tokens.enum (pr, 0) f
      (by simpa using hf)
  · exact foldl_flags_invariant_pair _ _
      (rule12Step_flags pr.tokens pr.tokens.length) pr.tokens.enum (pr, 0) f hf

theorem checkRule12P_rc (pr : ParseResult) (k : String)
    (h : k ≠ "rule_12_possessive_governed") :
    dictGet? (checkRule12P pr).rule_checks k = dictGet? pr.rule_checks k := by
  unfold checkRule12P
  dsimp only []
  have hfold := foldl_rc_invariant_pair _
    (rule12Step_rc pr.tokens pr.tokens.length) pr.tokens.enum (pr, 0)
  split
  · simp only [dictGet_dictSet_other _ _ _ _ h]
    rw [hfold]
  · rw [hfold]

theorem rule18Step_flags (acc : ParseResult) (p : Nat × Token) (f : Flag)
    (hf : f ∈ (rule18Step acc p).flags) : f ∈ acc.flags ∨ f.rule = "RULE_18" := by
  unfold rule18Step at hf
  dsimp only [] at hf
  split at hf
  · split at hf
    · exact Or.inl hf
    · rcases List.mem_append.mp hf with h | h
      · exact Or.inl h
      · simp only [List.mem_singleton] at h
        exact Or.inr (by rw [h])
  · exact Or.inl hf

theorem rule18Step_rc (acc : ParseResult) (p : Nat × Token) :
    (rule18Step acc p).rule_checks = acc.rule_checks := by
  unfold rule18Step
  dsimp only []
  split
  · split <;> rfl
  · rfl

theorem checkRule18P_flags (pr : ParseResult) (f : Flag)
    (hf : f ∈ (checkRule18P pr).flags) : f ∈ pr.flags ∨ f.rule = "RULE_18" :=
  foldl_flags_invariant _ _ rule18Step_flags pr.tokens.enum pr f hf

theorem checkRule18P_rc (pr : ParseResult) :
    (checkRule18P pr).rule_checks = pr.rule_checks :=
  foldl_rc_invariant _ rule18Step_rc pr.tokens.enum pr

theorem checkRule20P_flags (pr : ParseResult) (f : Flag)
    (hf : f ∈ (checkRule20P pr).flags) : f ∈ pr.flags ∨ f.rule = "RULE_20" := by
  unfold checkRule20P at hf
  dsimp only [] at hf
  split at hf
  · exact Or.inl hf
  · split at hf
    · split at hf
      · rcases List.mem_append.mp hf with h | h
        · exact Or.inl h
        · simp only [List.mem_singleton] at h
          exact Or.inr (by rw [h])
      · exact Or.inl hf
    · exact Or.inl hf

theorem checkRule20P_rc (pr : ParseResult) (k : String) (h : k ≠ "RULE_20") :
    dictGet? (checkRule20P pr).rule_checks k = dictGet? pr.rule_checks k := by
  unfold checkRule20P
  dsimp only []
  split
  · rfl
  · split
    · split
      · exact dictGet_dictSet_other _ _ _ _ h
      · exact dictGet_dictSet_other _ _ _ _ h
    · rfl

theorem rule31Step_flags (acc : ParseResult) (p : Nat × Token) (f : Flag)
    (hf : f ∈ (rule31Step acc p).flags) : f ∈ acc.flags ∨ f.rule = "RULE_31" := by
  unfold rule31Step at hf
  dsimp only [] at hf
  split at hf
  · split at hf
    · exact Or.inl hf
    · rcases List.mem_append.mp hf with h | h
      · exact Or.inl h
      · simp only [List.mem_singleton] at h
        exact Or.inr (by rw [h])
  · exact Or.inl hf

theorem rule31Step_rc (acc : ParseResult) (p : Nat × Token) :
    (rule31Step acc p).rule_checks = acc.rule_checks := by
  unfold rule31Step
  dsimp only []
  split
  · split <;> rfl
  · rfl

theorem checkRule31P_flags (pr : ParseResult) (f : Flag)
    (hf : f ∈ (checkRule31P pr).flags) : f ∈ pr.flags ∨ f.rule = "RULE_31" :=
  foldl_flags_invariant _ _ rule31Step_flags pr.tokens.enum pr f hf

theorem checkRule31P_rc (pr : ParseResult) :
    (checkRule31P pr).rule_checks = pr.rule_checks :=
  foldl_rc_invariant _ rule31Step_rc pr.tokens.enum pr

theorem prepObjectStep_flags (acc : ParseResult) (p : Nat × Token) (f : Flag)
    (hf : f ∈ (prepObjectStep acc p).flags) :
    f ∈ acc.flags ∨ f.rule = "RULE_31" := by
  unfold prepObjectStep at hf
  dsimp only [] at hf
  split at hf
  · split at hf
    · rcases List.mem_append.mp hf with h | h
      · exact Or.inl h
      · simp only [List.mem_singleton] at h
        exact Or.inr (by rw [h])
    · exact Or.inl hf
  · exact Or.inl hf

theorem prepObjectStep_rc (acc : ParseResult) (p : Nat × Token) :
    (prepObjectStep acc p).rule_checks = acc.rule_checks := by
  unfold prepObjectStep
  dsimp only []
  split
  · split <;> rfl
  · rfl

theorem checkPrepObjectCase_flags (pr : ParseResult) (f : Flag)
    (hf : f ∈ (checkPrepObjectCase pr).flags) :
    f ∈ pr.flags ∨ f.rule = "RULE_31" :=
  foldl_flags_invariant _ _ prepObjectStep_flags pr.tokens.enum pr f hf

theorem checkPrepObjectCase_rc (pr : ParseResult) :
    (checkPrepObjectCase pr).rule_checks = pr.rule_checks :=
  foldl_rc_invariant _ prepObjectStep_rc pr.tokens.enum pr

theorem checkCopulaPredicativeCase_flags (b : Bool) (pr : ParseResult)
    (f : Flag) (hf : f ∈ (checkCopulaPredicativeCase b pr).flags) :
    f ∈ pr.flags ∨ f.rule = "RULE_4" := by
  unfold checkCopulaPredicativeCase at hf
  dsimp only [] at hf
  split at hf
  · exact Or.inl hf
  · split at hf
    · exact Or.inl hf
    · split at hf
      · rcases List.mem_append.mp hf with h | h
        · exact Or.inl h
        · simp only [List.mem_singleton] at h
          exact Or.inr (by rw [h])
      · exact Or.inl hf

theorem checkCopulaPredicativeCase_rc (b : Bool) (pr : ParseResult) :
    (checkCopulaPredicativeCase b pr).rule_checks = pr.rule_checks := by
  unfold checkCopulaPredicativeCase
  dsimp only []
  split
  · rfl
  · split
    · rfl
    · split <;> rfl

theorem govInfStep_flags (acc : ParseResult) (p : Nat × Token) (f : Flag)
    (hf : f ∈ (govInfStep acc p).flags) :
    f ∈ acc.flags ∨ f.rule = "RULE_20" := by
  unfold govInfStep at hf
  dsimp only [] at hf
  split at hf
  · split at hf
    · rcases List.mem_append.mp hf with h | h
      · exact Or.inl h
      · simp only [List.mem_singleton] at h
        exact Or.inr (by rw [h])
    · exact Or.inl hf
  · exact Or.inl hf

theorem govInfStep_rc (acc : ParseResult) (p : Nat × Token) :
    (govInfStep acc p).rule_checks = acc.rule_checks := by
  unfold govInfStep
  dsimp only []
  split
  · split <;> rfl
  · rfl

theorem checkGovernedInfinitives_flags (pr : ParseResult) (f : Flag)
    (hf : f ∈ (checkGovernedInfinitives pr).flags) :
    f ∈ pr.flags ∨ f.rule = "RULE_20" :=
  foldl_flags_invariant _ _ govInfStep_flags pr.tokens.enum pr f hf

theorem checkGovernedInfinitives_rc (pr : ParseResult) :
    (checkGovernedInfinitives pr).rule_checks = pr.rule_checks :=
  foldl_rc_invariant _ govInfStep_rc pr.tokens.enum pr

/-- A config-guarded validation stage: any new flag satisfies the check's
flag property, and only when the guard is on. -/
theorem guarded_flags (b : Bool) (chk : ParseResult → ParseResult)
    (P : Flag → Prop)
    (hchk : ∀ pr f, f ∈ (chk pr).flags → f ∈ pr.flags ∨ P f)
    (pr : ParseResult) (f : Flag)
    (hf : f ∈ (if b then chk pr else pr).flags) :
    f ∈ pr.flags ∨ (b = true ∧ P f) := by
  cases b
  · exact Or.inl hf
  · rcases hchk pr f hf with h | h
    · exact Or.inl h
    · exact Or.inr ⟨rfl, h⟩

/-- A config-guarded validation stage preserves the lookup of a
`rule_checks` key when it is off, or when the check itself preserves it. -/
theorem guarded_rc (b : Bool) (chk : ParseResult → ParseResult) (k : String)
    (h : b = false ∨
      ∀ pr, dictGet? (chk pr).rule_checks k = dictGet? pr.rule_checks k)
    (pr : ParseResult) :
    dictGet? (if b then chk pr else pr).rule_checks k =
      dictGet? pr.rule_checks k := by
  cases b
  · rfl
  · rcases h with h | h
    · exact absurd h (by simp)
    · exact h pr

/-- Every flag added by `parser.py`'s `validate` comes from one of its
stages, each active only under its config guard; the extended block reuses
the ids `RULE_4` (copula check) and `RULE_20` (governed infinitives). -/
theorem parserValidate_flags (cfg : PParserConfig) (pr : ParseResult)
    (f : Flag) (hf : f ∈ (parserValidate cfg pr).flags) :
    f ∈ pr.flags
    ∨ (cfg.enforce_rule_3_strict = true ∧ f.rule = "RULE_3")
    ∨ (cfg.enforce_rule_4_strict = true ∧ f.rule = "RULE_4")
    ∨ (cfg.enforce_rule_12_strict = true ∧ f.rule = "RULE_12")
    ∨ (cfg.enforce_rule_20_strict = true ∧ f.rule = "RULE_20")
    ∨ (cfg.enable_extended_validation = true ∧
        (f.rule = "RULE_18" ∨ f.rule = "RULE_31" ∨ f.rule = "RULE_4" ∨
         f.rule = "RULE_20")) := by
  unfold parserValidate at hf
  dsimp only [] at hf
  have tail_chk : ∀ (q : ParseResult) (g : Flag),
      g ∈ (checkGovernedInfinitives
            (checkCopulaPredicativeCase cfg.allow_informal_pronouns
              (checkPrepObjectCase q))).flags →
      g ∈ q.flags ∨
        (g.rule = "RULE_18" ∨ g.rule = "RULE_31" ∨ g.rule = "RULE_4" ∨
         g.rule = "RULE_20") := by
    intro q g hg
    rcases checkGovernedInfinitives_flags _ g hg with h | h
    · rcases checkCopulaPredicativeCase_flags _ _ g h with h2 | h2
      · rcases checkPrepObjectCase_flags _ g h2 with h3 | h3
        · exact Or.inl h3
        · exact Or.inr (Or.inr (Or.inl h3))
      · exact Or.inr (Or.inr (Or.inr (Or.inl h2)))
    · exact Or.inr (Or.inr (Or.inr (Or.inr h)))
  rcases guarded_flags cfg.enable_extended_validation _ _ tail_chk _ f hf
    with hf | hext
  · rcases guarded_flags cfg.enable_extended_validation _ _
        (fun q g hg => checkRule31P_flags q g hg) _ f hf with hf | h31
    · rcases guarded_flags cfg.enforce_rule_20_strict _ _
          (fun q g hg => checkRule20P_flags q g hg) _ f hf with hf | h20
      · rcases guarded_flags cfg.enable_extended_validation _ _
            (fun q g hg => checkRule18P_flags q g hg) _ f hf with hf | h18
        · rcases guarded_flags cfg.enforce_rule_12_strict _ _
              (fun q g hg => checkRule12P_flags q g hg) _ f hf with hf | h12
          · rcases guarded_flags cfg.enforce_rule_4_strict _ _
                (fun q g hg => checkRule4P_flags q g hg) _ f hf with hf | h4
            · rcases guarded_flags cfg.enforce_rule_3_strict _ _
                  (fun q g hg => checkRule3P_flags q g hg) _ f hf with hf | h3
              · exact Or.inl hf
              · exact Or.inr (Or.inl h3)
            · exact Or.inr (Or.inr (Or.inl h4))
          · exact Or.inr (Or.inr (Or.inr (Or.inl h12)))
        · exact Or.inr (Or.inr (Or.inr (Or.inr (Or.inr
            ⟨h18.1, Or.inl h18.2⟩))))
      · exact Or.inr (Or.inr (Or.inr (Or.inr (Or.inl h20))))
    · exact Or.inr (Or.inr (Or.inr (Or.inr (Or.inr
        ⟨h31.1, Or.inr (Or.inl h31.2)⟩))))
  · exact Or.inr (Or.inr (Or.inr (Or.inr (Or.inr hext))))

/-- `parser.py`'s `validate` leaves the lookup of a `rule_checks` key
unchanged when every stage writing that key is disabled (or the key is not
one it writes). -/
theorem parserValidate_rc (cfg : PParserConfig) (pr : ParseResult)
    (k : String)
    (h3 : cfg.enforce_rule_3_strict = false ∨ k ≠ "RULE_3")
    (h4 : cfg.enforce_rule_4_strict = false ∨ k ≠ "RULE_4")
    (h12 : cfg.enforce_rule_12_strict = false ∨
      k ≠ "rule_12_possessive_governed")
    (h20 : cfg.enforce_rule_20_strict = false ∨ k ≠ "RULE_20") :
    dictGet? (parserValidate cfg pr).rule_checks k =
      dictGet? pr.rule_checks k := by
  unfold parserValidate
  dsimp only []
  have htail : ∀ q : ParseResult,
      dictGet? (checkGovernedInfinitives
          (checkCopulaPredicativeCase cfg.allow_informal_pronouns
            (checkPrepObjectCase q))).rule_checks k =
        dictGet? q.rule_checks k := by
    intro q
    rw [checkGovernedInfinitives_rc, checkCopulaPredicativeCase_rc,
      checkPrepObjectCase_rc]
  have h31' : ∀ q : ParseResult,
      dictGet? (checkRule31P q).rule_checks k = dictGet? q.rule_checks k :=
    fun q => by rw [checkRule31P_rc]
  have h18' : ∀ q : ParseResult,
      dictGet? (checkRule18P q).rule_checks k = dictGet? q.rule_checks k :=
    fun q => by rw [checkRule18P_rc]
  have h20' := h20.imp_right (fun hk q => checkRule20P_rc q k hk)
  have h12' := h12.imp_right (fun hk q => checkRule12P_rc q k hk)
  have h4' := h4.imp_right (fun hk q => checkRule4P_rc q k hk)
  have h3' := h3.imp_right (fun hk q => checkRule3P_rc q k hk)
  refine (guarded_rc _ _ k (Or.inr htail) _).trans ?_
  refine (guarded_rc _ _ k (Or.inr h31') _).trans ?_
  refine (guarded_rc _ _ k h20' _).trans ?_
  refine (guarded_rc _ _ k (Or.inr h18') _).trans ?_
  refine (guarded_rc _ _ k h12' _).trans ?_
  refine (guarded_rc _ _ k h4' _).trans ?_
  exact guarded_rc _ _ k h3' _

/-- All flags of a full `parser.py` parse come from guarded validation
stages (the pre-validation result carries no flags). -/
theorem parserParse_flags (cfg : PParserConfig) (text : String) (f : Flag)
    (hf : f ∈ (parserParse cfg text).flags) :
    (cfg.enforce_rule_3_strict = true ∧ f.rule = "RULE_3")
    ∨ (cfg.enforce_rule_4_strict = true ∧ f.rule = "RULE_4")
    ∨ (cfg.enforce_rule_12_strict = true ∧ f.rule = "RULE_12")
    ∨ (cfg.enforce_rule_20_strict = true ∧ f.rule = "RULE_20")
    ∨ (cfg.enable_extended_validation = true ∧
        (f.rule = "RULE_18" ∨ f.rule = "RULE_31" ∨ f.rule = "RULE_4" ∨
         f.rule = "RULE_20")) := by
  unfold parserParse at hf
  dsimp only [] at hf
  split at hf
  · split at hf <;> simp at hf
  · rcases parserValidate_flags cfg _ f hf with h | h
    · split at h <;> split at h <;> simp at h
    · exact h

/-- A full `parser.py` parse holds no `rule_checks` entry for a key whose
writing stages are all disabled (the pre-validation map is empty). -/
theorem parserParse_rc_none (cfg : PParserConfig) (text : String)
    (k : String)
    (h3 : cfg.enforce_rule_3_strict = false ∨ k ≠ "RULE_3")
    (h4 : cfg.enforce_rule_4_strict = false ∨ k ≠ "RULE_4")
    (h12 : cfg.enforce_rule_12_strict = false ∨
      k ≠ "rule_12_possessive_governed")
    (h20 : cfg.enforce_rule_20_strict = false ∨ k ≠ "RULE_20") :
    dictGet? (parserParse cfg text).rule_checks k = none := by
  unfold parserParse
  dsimp only []
  split
  · split <;> rfl
  · rw [parserValidate_rc cfg _ k h3 h4 h12 h20]
    split <;> split <;> rfl

/-! ### C2: rule independence under config toggles -/

/-- **C2** counterexample: with `enforce_rule_4_strict` disabled (default
config otherwise), parsing "It is me." still yields a flag bearing rule id
`RULE_4` — the extended copula check reuses that id — even though the
`RULE_4` rule-check entry is absent.  So disabling a rule's toggle does
not give zero flags of that rule id. -/
theorem c2_copula_flags_rule4_when_disabled :
    ((parserParse { DEFAULT_PCONFIG with enforce_rule_4_strict := false }
        "It is me.").flags.map (fun f => f.rule)) = ["RULE_4"]
    ∧ dictGet? (parserParse { DEFAULT_PCONFIG with
        enforce_rule_4_strict := false }
        "It is me.").rule_checks "RULE_4" = none :=
  ⟨rfl, rfl⟩

/-- **C2** (amended): a disabled check contributes no rule-check entry for
its key, and no flags of its rule id provided no *other* enabled check
reuses that id: `RULE_3` and `RULE_12` are fully independent, while the
flag ids `RULE_4` and `RULE_20` are also emitted by the extended-validation
block (copula predicative case, governed infinitives), so their absence
additionally needs `enable_extended_validation = false`; `RULE_18` and
`RULE_31` flags come only from that block. -/
theorem c2_disabled_check_contributes_nothing
    (cfg : PParserConfig) (text : String) :
    (cfg.enforce_rule_3_strict = false →
      (∀ f ∈ (parserParse cfg text).flags, f.rule ≠ "RULE_3") ∧
      dictGet? (parserParse cfg text).rule_checks "RULE_3" = none)
    ∧ (cfg.enforce_rule_12_strict = false →
      (∀ f ∈ (parserParse cfg text).flags, f.rule ≠ "RULE_12") ∧
      dictGet? (parserParse cfg text).rule_checks
        "rule_12_possessive_governed" = none)
    ∧ (cfg.enforce_rule_4_strict = false →
      dictGet? (parserParse cfg text).rule_checks "RULE_4" = none ∧
      (cfg.enable_extended_validation = false →
        ∀ f ∈ (parserParse cfg text).flags, f.rule ≠ "RULE_4"))
    ∧ (cfg.enforce_rule_20_strict = false →
      dictGet? (parserParse cfg text).rule_checks "RULE_20" = none ∧
      (cfg.enable_extended_validation = false →
        ∀ f ∈ (parserParse cfg text).flags, f.rule ≠ "RULE_20"))
    ∧ (cfg.enable_extended_validation = false →
      ∀ f ∈ (parserParse cfg text).flags,
        f.rule ≠ "RULE_18" ∧ f.rule ≠ "RULE_31") := by
  refine ⟨?_, ?_, ?_, ?_, ?_⟩
  · intro h
    refine ⟨?_, parserParse_rc_none cfg text "RULE_3" (Or.inl h)
      (Or.inr (by decide)) (Or.inr (by decide)) (Or.inr (by decide))⟩
    intro f hf hr
    rcases parserParse_flags cfg text f hf with ⟨hg, he⟩ | ⟨hg, he⟩ |
      ⟨hg, he⟩ | ⟨hg, he⟩ | ⟨hg, he⟩
    · rw [h] at hg; exact Bool.noConfusion hg
    · rw [he] at hr; exact absurd hr (by decide)
    · rw [he] at hr; exact absurd hr (by decide)
    · rw [he] at hr; exact absurd hr (by decide)
    · rcases he with he | he | he | he <;>
        (rw [he] at hr; exact absurd hr (by decide))
  · intro h
    refine ⟨?_, parserParse_rc_none cfg text "rule_12_possessive_governed"
      (Or.inr (by decide)) (Or.inr (by decide)) (Or.inl h)
      (Or.inr (by decide))⟩
    intro f hf hr
    rcases parserParse_flags cfg text f hf with ⟨hg, he⟩ | ⟨hg, he⟩ |
      ⟨hg, he⟩ | ⟨hg, he⟩ | ⟨hg, he⟩
    · rw [he] at hr; exact absurd hr (by decide)
    · rw [he] at hr; exact absurd hr (by decide)
    · rw [h] at hg; exact Bool.noConfusion hg
    · rw [he] at hr; exact absurd hr (by decide)
    · rcases he with he | he | he | he <;>
        (rw [he] at hr; exact absurd hr (by decide))
  · intro h
    refine ⟨parserParse_rc_none cfg text "RULE_4" (Or.inr (by decide))
      (Or.inl h) (Or.inr (by decide)) (Or.inr (by decide)), ?_⟩
    intro hext f hf hr
    rcases parserParse_flags cfg text f hf with ⟨hg, he⟩ | ⟨hg, he⟩ |
      ⟨hg, he⟩ | ⟨hg, he⟩ | ⟨hg, he⟩
    · rw [he] at hr; exact absurd hr (by decide)
    · rw [h] at hg; exact Bool.noConfusion hg
    · rw [he] at hr; exact absurd hr (by decide)
    · rw [he] at hr; exact absurd hr (by decide)
    · rw [hext] at hg; exact Bool.noConfusion hg
  · intro h
    refine ⟨parserParse_rc_none cfg text "RULE_20" (Or.inr (by decide))
      (Or.inr (by decide)) (Or.inr (by decide)) (Or.inl h), ?_⟩
    intro hext f hf hr
    rcases parserParse_flags cfg text f hf with ⟨hg, he⟩ | ⟨hg, he⟩ |
      ⟨hg, he⟩ | ⟨hg, he⟩ | ⟨hg, he⟩
    · rw [he] at hr; exact absurd hr (by decide)
    · rw [he] at hr; exact absurd hr (by decide)
    · rw [he] at hr; exact absurd hr (by decide)
    · rw [h] at hg; exact Bool.noConfusion hg
    · rw [hext] at hg; exact Bool.noConfusion hg
  · intro hext f hf
    constructor <;> intro hr <;>
      (rcases parserParse_flags cfg text f hf with ⟨hg, he⟩ | ⟨hg, he⟩ |
        ⟨hg, he⟩ | ⟨hg, he⟩ | ⟨hg, he⟩)
    · rw [he] at hr; exact absurd hr (by decide)
    · rw [he] at hr; exact absurd hr (by decide)
    · rw [he] at hr; exact absurd hr (by decide)
    · rw [he] at hr; exact absurd hr (by decide)
    · rw [hext] at hg; exact Bool.noConfusion hg
    · rw [he] at hr; exact absurd hr (by decide)
    · rw [he] at hr; exact absurd hr (by decide)
    · rw [he] at hr; exact absurd hr (by decide)
    · rw [he] at hr; exact absurd hr (by decide)
    · rw [hext] at hg; exact Bool.noConfusion hg

/-- **C2** witness: with every rule toggle and the extended block off,
"The cats runs." has no `RULE_4` rule-check entry and no `RULE_4` flag. -/
theorem c2_disabled_check_contributes_nothing_witness :
    dictGet? (parserParse { DEFAULT_PCONFIG with
        enforce_rule_3_strict := false, enforce_rule_4_strict := false,
        enforce_rule_12_strict := false, enforce_rule_20_strict := false,
        enable_extended_validation := false }
      "The cats runs.").rule_checks "RULE_4" = none
    ∧ ∀ f ∈ (parserParse { DEFAULT_PCONFIG with
        enforce_rule_3_strict := false, enforce_rule_4_strict := false,
        enforce_rule_12_strict := false, enforce_rule_20_strict := false,
        enable_extended_validation := false }
      "The cats runs.").flags, f.rule ≠ "RULE_4" := by
  obtain ⟨-, -, h4, -, -⟩ :=
    c2_disabled_check_contributes_nothing { DEFAULT_PCONFIG with
      enforce_rule_3_strict := false, enforce_rule_4_strict := false,
      enforce_rule_12_strict := false, enforce_rule_20_strict := false,
      enable_extended_validation := false } "The cats runs."
  exact ⟨(h4 rfl).1, (h4 rfl).2 rfl⟩

/-! ### C9: checks whose prerequisites are absent -/

/-- **C9** counterexample: for "Sit." (no subject found, verb phrase
found, agreement check enabled by default) `parser.py`'s `_check_rule_4`
returns early, so the `RULE_4` rule-check entry is *omitted*, not recorded
as a passing `true` entry. -/
theorem c9_rule4_entry_omitted_for_sit :
    DEFAULT_PCONFIG.enforce_rule_4_strict = true
    ∧ (parserParse DEFAULT_PCONFIG "Sit.").subject = none
    ∧ (parserParse DEFAULT_PCONFIG "Sit.").verb_phrase.isSome = true
    ∧ dictGet? (parserParse DEFAULT_PCONFIG "Sit.").rule_checks "RULE_4"
      = none :=
  ⟨rfl, rfl, rfl, rfl⟩

/-- **C9** (amended): when the agreement check's prerequisites are absent
(no subject or no verb phrase), `_check_rule_4` leaves the result
untouched — no flag, but also *no* rule-check entry. -/
theorem c9_rule4_skips_without_prereqs (pr : ParseResult)
    (h : pr.subject = none ∨ pr.verb_phrase = none) :
    checkRule4P pr = pr := by
  unfold checkRule4P
  split
  · rcases h with h | h <;> simp_all
  · rfl

/-- **C9** witness: `_check_rule_4` is the identity on an empty result. -/
theorem c9_rule4_skips_without_prereqs_witness :
    checkRule4P { tokens := [] } = { tokens := [] } :=
  c9_rule4_skips_without_prereqs { tokens := [] } (Or.inl rfl)

theorem optBoolTruthy_eq_true (o : Option Bool) :
    optBoolTruthy o = true ↔ o = some true := by
  cases o with
  | none => simp [optBoolTruthy]
  | some b => cases b <;> simp [optBoolTruthy]

/-! ### C4: the finite-verb anchor and the agreement check -/

/-- **C4**: the agreement check compares the subject's head token with the
verb phrase's finite-verb anchor, chosen by the precedence
modal > tensed non-participle be/do/have auxiliary > "-s"/"-ed" verb >
last token of the chain; when they disagree a `RULE_4` flag is emitted,
and "The cats runs." indeed draws one. -/
theorem c4_agreement_uses_finite_anchor :
    (∀ (vp : Phrase) (t : Token),
      (vp.tokens.find? (fun t => optBoolTruthy t.features.modal) = some t →
        finiteVerbOfVp vp = t)
      ∧ (vp.tokens.find? (fun t => optBoolTruthy t.features.modal) = none →
        vp.tokens.find? (fun t =>
            (t.features.auxiliary = some "be" ||
             t.features.auxiliary = some "do" ||
             t.features.auxiliary = some "have") &&
            !(optStrTruthy t.features.participle)) = some t →
        finiteVerbOfVp vp = t)
      ∧ (vp.tokens.find? (fun t => optBoolTruthy t.features.modal) = none →
        vp.tokens.find? (fun t =>
            (t.features.auxiliary = some "be" ||
             t.features.auxiliary = some "do" ||
             t.features.auxiliary = some "have") &&
            !(optStrTruthy t.features.participle)) = none →
        vp.tokens.find? (fun t =>
            t.pos = POS.verb &&
            (pyEndsWith t.text "s" || pyEndsWith t.text "ed")) = some t →
        finiteVerbOfVp vp = t))
    ∧ (∀ vp : Phrase,
      vp.tokens.find? (fun t => optBoolTruthy t.features.modal) = none →
      vp.tokens.find? (fun t =>
          (t.features.auxiliary = some "be" ||
           t.features.auxiliary = some "do" ||
           t.features.auxiliary = some "have") &&
          !(optStrTruthy t.features.participle)) = none →
      vp.tokens.find? (fun t =>
          t.pos = POS.verb &&
          (pyEndsWith t.text "s" || pyEndsWith t.text "ed")) = none →
      finiteVerbOfVp vp = vp.tokens.getLastD default)
    ∧ (∀ (pr : ParseResult) (s v : Phrase),
      pr.subject = some s → pr.verb_phrase = some v →
      dictGet? (checkRule4P pr).rule_checks "RULE_4" =
        some (checkAgreementP s.head_token (finiteVerbOfVp v))
      ∧ (checkAgreementP s.head_token (finiteVerbOfVp v) = false →
        (checkRule4P pr).flags.any (fun f => f.rule = "RULE_4") = true))
    ∧ (parserParse DEFAULT_PCONFIG "The cats runs.").flags.any
        (fun f => f.rule = "RULE_4") = true := by
  refine ⟨?_, ?_, ?_, rfl⟩
  · intro vp t
    refine ⟨?_, ?_, ?_⟩
    · intro h1; unfold finiteVerbOfVp; rw [h1]
    · intro h1 h2; unfold finiteVerbOfVp; rw [h1, h2]
    · intro h1 h2 h3; unfold finiteVerbOfVp; rw [h1, h2, h3]
  · intro vp h1 h2 h3; unfold finiteVerbOfVp; rw [h1, h2, h3]
  · intro pr s v hs hv
    unfold checkRule4P
    rw [hs, hv]
    dsimp only []
    constructor
    · split
      · exact dictGet_dictSet_same _ _ _
      · exact dictGet_dictSet_same _ _ _
    · intro hfalse
      rw [hfalse]
      simp [List.any_append]

/-- A one-token modal verb phrase, for exercising the anchor precedence. -/
def willTok : Token :=
  { text := "will", lem := "will", pos := POS.verb,
    features := { modal := some true } }

/-- **C4** witness: a one-token modal phrase anchors on that modal, and
"The cats runs." draws the `RULE_4` flag. -/
theorem c4_agreement_uses_finite_anchor_witness :
    finiteVerbOfVp { tokens := [willTok], phrase_type := "VP", head_index := 0 } = willTok
    ∧ (parserParse DEFAULT_PCONFIG "The cats runs.").flags.any
        (fun f => f.rule = "RULE_4") = true :=
  ⟨(c4_agreement_uses_finite_anchor.1 _ _).1 rfl,
   c4_agreement_uses_finite_anchor.2.2.2⟩

/-! ### C5: voice determination -/

/-- **C5**: for a found (hence non-empty) verb phrase the voice is PASSIVE
iff the phrase holds a be-auxiliary (or, with `detect_get_passive`, a
get-auxiliary) and a past participle occurs in the phrase or within the 2
tokens right after it; otherwise ACTIVE iff an object was found or a
phrase token carries an explicit transitive feature; otherwise NEUTER —
and "The mouse was chased by the cat." parses as PASSIVE. -/
theorem c5_voice_characterization :
    (∀ (g : Bool) (tokens : List Token) (vp : Phrase) (obj : Option Phrase),
      vp.tokens ≠ [] →
      (determineVoice g tokens vp obj = PVoice.passive ↔
        ((∃ t ∈ vp.tokens, t.features.auxiliary = some "be" ∨
            (g = true ∧ t.features.auxiliary = some "get")) ∧
         ((∃ t ∈ vp.tokens, t.features.participle = some "past") ∨
          (∃ t ∈ (tokens.drop
              (indexOfTok tokens (vp.tokens.getLastD default) + 1)).take 2,
            t.features.participle = some "past"))))
      ∧ (determineVoice g tokens vp obj ≠ PVoice.passive →
        (determineVoice g tokens vp obj = PVoice.active ↔
          (obj.isSome = true ∨
           ∃ t ∈ vp.tokens, t.features.transitive = some true)))
      ∧ (determineVoice g tokens vp obj ≠ PVoice.passive →
        ¬(obj.isSome = true ∨
           ∃ t ∈ vp.tokens, t.features.transitive = some true) →
        determineVoice g tokens vp obj = PVoice.neuter))
    ∧ (parserParse DEFAULT_PCONFIG
        "The mouse was chased by the cat.").voice = some PVoice.passive := by
  refine ⟨?_, rfl⟩
  intro g tokens vp obj hne
  have hie : vp.tokens.isEmpty = false := by
    cases h : vp.tokens.isEmpty
    · rfl
    · exact absurd (List.isEmpty_iff.mp h) hne
  have haux : (vp.tokens.any (fun t =>
      t.features.auxiliary = some "be" ||
      (g && t.features.auxiliary = some "get")) = true) ↔
      ∃ t ∈ vp.tokens, t.features.auxiliary = some "be" ∨
        (g = true ∧ t.features.auxiliary = some "get") := by
    simp [List.any_eq_true]
  have hvbn : (vp.tokens.any
      (fun t => t.features.participle = some "past") = true) ↔
      ∃ t ∈ vp.tokens, t.features.participle = some "past" := by
    simp [List.any_eq_true]
  have hla : (((tokens.drop
      (indexOfTok tokens (vp.tokens.getLastD default) + 1)).take 2).any
      (fun t => t.features.participle = some "past") = true) ↔
      ∃ t ∈ (tokens.drop
          (indexOfTok tokens (vp.tokens.getLastD default) + 1)).take 2,
        t.features.participle = some "past" := by
    simp [List.any_eq_true]
  have htr : (vp.tokens.any
      (fun t => optBoolTruthy t.features.transitive) = true) ↔
      ∃ t ∈ vp.tokens, t.features.transitive = some true := by
    simp [List.any_eq_true, optBoolTruthy_eq_true]
  simp only [determineVoice, hie, Bool.false_eq_true, if_false,
    haux, hvbn, hla, htr]
  by_cases h1 : (∃ t ∈ vp.tokens, t.features.auxiliary = some "be" ∨
      (g = true ∧ t.features.auxiliary = some "get")) ∧
    ((∃ t ∈ vp.tokens, t.features.participle = some "past") ∨
     (∃ t ∈ (tokens.drop
         (indexOfTok tokens (vp.tokens.getLastD default) + 1)).take 2,
       t.features.participle = some "past"))
  · rw [if_pos h1]
    exact ⟨⟨fun _ => h1, fun _ => rfl⟩,
      fun hne2 => absurd rfl hne2, fun hne2 _ => absurd rfl hne2⟩
  · rw [if_neg h1]
    by_cases h2 : obj.isSome = true ∨
      ∃ t ∈ vp.tokens, t.features.transitive = some true
    · rw [if_pos h2]
      exact ⟨⟨fun h => PVoice.noConfusion h, fun hc => absurd hc h1⟩,
        fun _ => ⟨fun _ => h2, fun _ => rfl⟩,
        fun _ hn2 => absurd h2 hn2⟩
    · rw [if_neg h2]
      exact ⟨⟨fun h => PVoice.noConfusion h, fun hc => absurd hc h1⟩,
        fun _ => ⟨fun h => PVoice.noConfusion h, fun hc => absurd hc h2⟩,
        fun _ _ => rfl⟩

/-- A be-auxiliary token, for exercising voice determination. -/
def wasTok : Token :=
  { text := "was", lem := "was", pos := POS.verb,
    features := { auxiliary := some "be" } }

/-- A past-participle token, for exercising voice determination. -/
def chasedTok : Token :=
  { text := "chased", lem := "chased", pos := POS.verb,
    features := { participle := some "past" } }

/-- **C5** witness: a be-auxiliary plus in-phrase past participle is
classified PASSIVE, and the concrete sentence parses as PASSIVE. -/
theorem c5_voice_characterization_witness :
    determineVoice true [wasTok, chasedTok]
      { tokens := [wasTok, chasedTok], phrase_type := "VP", head_index := 1 }
      none = PVoice.passive
    ∧ (parserParse DEFAULT_PCONFIG
        "The mouse was chased by the cat.").voice = some PVoice.passive := by
  refine ⟨?_, c5_voice_characterization.2⟩
  refine ((c5_voice_characterization.1 true [wasTok, chasedTok]
    { tokens := [wasTok, chasedTok], phrase_type := "VP", head_index := 1 }
    none (by simp)).1).mpr ?_
  exact ⟨⟨wasTok, by simp [wasTok], Or.inl rfl⟩,
    Or.inl ⟨chasedTok, by simp [chasedTok], rfl⟩⟩

/-! ### C6: tense determination -/

/-- **C6**: for a found (hence non-empty) verb phrase, "will"/"shall"
among the lemmas gives FUTURE, upgraded to FUTURE_PERFECT when
"have"/"has" is also present; otherwise "have"/"has"/"had" together with a
past-participle token gives PAST_PERFECT when "had" is present, else
PRESENT_PERFECT — and "She will have gone." parses as FUTURE_PERFECT. -/
theorem c6_tense_rules :
    (∀ vp : Phrase, vp.tokens ≠ [] →
      (("will" ∈ vp.tokens.map (fun t => t.lem) ∨
        "shall" ∈ vp.tokens.map (fun t => t.lem)) →
        (("have" ∈ vp.tokens.map (fun t => t.lem) ∨
          "has" ∈ vp.tokens.map (fun t => t.lem)) →
          determineTense vp = PTense.futurePerfect)
        ∧ (¬("have" ∈ vp.tokens.map (fun t => t.lem) ∨
            "has" ∈ vp.tokens.map (fun t => t.lem)) →
          determineTense vp = PTense.future))
      ∧ (¬("will" ∈ vp.tokens.map (fun t => t.lem) ∨
          "shall" ∈ vp.tokens.map (fun t => t.lem)) →
        ("have" ∈ vp.tokens.map (fun t => t.lem) ∨
         "has" ∈ vp.tokens.map (fun t => t.lem) ∨
         "had" ∈ vp.tokens.map (fun t => t.lem)) →
        (∃ t ∈ vp.tokens, t.features.participle = some "past") →
        ("had" ∈ vp.tokens.map (fun t => t.lem) →
          determineTense vp = PTense.pastPerfect)
        ∧ (¬("had" ∈ vp.tokens.map (fun t => t.lem)) →
          determineTense vp = PTense.presentPerfect)))
    ∧ (parserParse DEFAULT_PCONFIG "She will have gone.").tense
      = some PTense.futurePerfect := by
  refine ⟨?_, rfl⟩
  intro vp hne
  have hie : vp.tokens.isEmpty = false := by
    cases h : vp.tokens.isEmpty
    · rfl
    · exact absurd (List.isEmpty_iff.mp h) hne
  have hcont : ∀ s : String,
      ((vp.tokens.map (fun t => t.lem)).contains s = true) ↔
        s ∈ vp.tokens.map (fun t => t.lem) := by
    intro s; simp
  have hany : (vp.tokens.any
      (fun t => t.features.participle = some "past") = true) ↔
      ∃ t ∈ vp.tokens, t.features.participle = some "past" := by
    simp [List.any_eq_true]
  simp only [determineTense, hie, Bool.false_eq_true, if_false,
    Bool.or_eq_true, Bool.and_eq_true, hcont, hany]
  constructor
  · intro hws
    rw [if_pos hws]
    constructor
    · intro hh; rw [if_pos hh]
    · intro hh; rw [if_neg hh]
  · intro hnws hhh hpart
    rw [if_neg hnws, if_pos ⟨or_assoc.mpr hhh, hpart⟩]
    constructor
    · intro hhad; rw [if_pos hhad]
    · intro hnhad; rw [if_neg hnhad]

/-- A "have" auxiliary token, for exercising tense determination. -/
def haveTok : Token :=
  { text := "have", lem := "have", pos := POS.verb,
    features := { auxiliary := some "have" } }

/-- **C6** witness: a will + have phrase is FUTURE_PERFECT, and the
concrete sentence parses as FUTURE_PERFECT. -/
theorem c6_tense_rules_witness :
    determineTense { tokens := [willTok, haveTok], phrase_type := "VP", head_index := 1 }
      = PTense.futurePerfect
    ∧ (parserParse DEFAULT_PCONFIG "She will have gone.").tense
      = some PTense.futurePerfect := by
  refine ⟨?_, c6_tense_rules.2⟩
  exact ((c6_tense_rules.1
    { tokens := [willTok, haveTok], phrase_type := "VP", head_index := 1 }
    (by simp)).1 (Or.inl (by decide))).1 (Or.inl (by decide))

/-! ### The modular pipeline (`syntactic.py` + `validator.py` +
`models.py`)

The syntactic stages (`_detect_sentence_type`, `_find_verb_phrase`,
`_find_subject`, `_find_object`, `_determine_voice`, `_determine_tense`)
are character-identical between `syntactic.py` and `parser.py`, so the
embeddings above are shared.  The classifier differs (`classifierClassify`
vs `parserClassify`), the config dataclass differs
(`models.ParserConfig` below vs `PParserConfig`), and the validator
differs: `validator.py`'s `validate` guards rules 1–35 on config
attributes, but `models.ParserConfig` defines no `enforce_rule_5_strict`
field, so evaluating the rule-5 guard raises `AttributeError` on every
call. -/

/-- `models.py`'s `ParserConfig` dataclass: exactly the fields defined in
`models.py` lines 39–94.  Note there is no `enforce_rule_5_strict` (nor
6, 7, 9, 10, 11, 14–17, 22–24, 32–35). -/
structure ModelsParserConfig where
  enforce_rule_1_strict : Bool := true
  enforce_rule_2_strict : Bool := true
  enforce_rule_3_strict : Bool := true
  enforce_rule_4_strict : Bool := true
  enforce_rule_8_strict : Bool := true
  enforce_rule_12_strict : Bool := true
  enforce_rule_13_strict : Bool := true
  enforce_rule_18_strict : Bool := true
  enforce_rule_19_strict : Bool := true
  enforce_rule_20_strict : Bool := true
  enforce_rule_21_strict : Bool := true
  enforce_rule_25_strict : Bool := true
  enforce_rule_28_strict : Bool := true
  enforce_rule_29_strict : Bool := true
  enforce_rule_30_strict : Bool := true
  enforce_rule_31_strict : Bool := true
  enforce_ortho_rules : Bool := true
  enforce_ortho_i : Bool := true
  enforce_ortho_ii : Bool := true
  enforce_ortho_iii : Bool := true
  enforce_ortho_iv : Bool := true
  enforce_ortho_v : Bool := true
  enforce_ortho_vi : Bool := true
  enforce_ortho_vii : Bool := true
  enforce_ortho_viii : Bool := true
  enforce_ortho_ix : Bool := true
  enforce_ortho_x : Bool := true
  enforce_punctuation_rules : Bool := true
  enforce_comma_rules : Bool := true
  enforce_semicolon_rules : Bool := true
  enforce_colon_rules : Bool := true
  enforce_period_rules : Bool := true
  enforce_dash_rules : Bool := true
  enforce_interrogation_rules : Bool := true
  enforce_exclamation_rules : Bool := true
  enforce_apostrophe_rules : Bool := true
  enforce_quotation_rules : Bool := true
  detect_get_passive : Bool := true
  detect_been_passive : Bool := true
  detect_infinitives : Bool := true
  detect_sentence_type : Bool := true
  detect_tense : Bool := true
  allow_informal_pronouns : Bool := false
  allow_sentence_fragments : Bool := false
  max_parse_depth : Nat := 100
  enable_extended_validation : Bool := true
  deriving DecidableEq, Repr

/-- `models.py`'s `DEFAULT_CONFIG = ParserConfig()`. -/
def DEFAULT_MCONFIG : ModelsParserConfig := {}

/-- The `past_tense_verbs` literal set inside `validator.py`'s
`_check_agreement` (lines 525–561). -/
def PAST_TENSE_VERBS : List String :=
  ["gave", "went", "came", "saw", "took", "made", "got", "had", "did",
   "said", "thought", "knew", "felt", "found", "left", "put", "brought",
   "bought", "caught", "taught", "fought", "sought", "wrote", "drove",
   "rode", "chose", "spoke", "broke", "stole", "froze", "threw", "drew",
   "grew", "flew", "blew"]

/-- `validator.py`'s `_check_agreement` (the richer modular copy:
be / have / do tables, modals, participle and tense features, irregular
past forms, then the 3rd-singular `-s` logic).  `have`-lemmas other than
have/has/had (i.e. "having") and `be`-lemmas other than the five finite
forms fall through. -/
def checkAgreementV (subject verb : Token) : Bool :=
  let subj_number := subject.number.getD PNumber.singular
  let subj_person := subject.person.getD PPerson.third
  let beResult : Option Bool :=
    if inSet verb.lem AUXILIARY_BE then
      if verb.lem = "am" then
        some (subj_person = PPerson.first ∧ subj_number = PNumber.singular)
      else if verb.lem = "is" then
        some (subj_person = PPerson.third ∧ subj_number = PNumber.singular)
      else if verb.lem = "are" then
        some (subj_number = PNumber.plural ∨ subj_person = PPerson.second)
      else if verb.lem = "was" then
        some (subj_number = PNumber.singular ∧ subj_person ≠ PPerson.second)
      else if verb.lem = "were" then
        some (subj_number = PNumber.plural ∨ subj_person = PPerson.second)
      else none
    else none
  match beResult with
  | some b => b
  | none =>
    let haveResult : Option Bool :=
      if inSet verb.lem AUXILIARY_HAVE then
        if verb.lem = "have" || verb.lem = "has" then
          if subj_person = PPerson.third ∧ subj_number = PNumber.singular
          then some (verb.lem = "has")
          else some (verb.lem = "have")
        else if verb.lem = "had" then some true
        else none
      else none
    match haveResult with
    | some b => b
    | none =>
      let doResult : Option Bool :=
        if inSet verb.lem AUXILIARY_DO then
          if verb.lem = "do" || verb.lem = "does" then
            if subj_person = PPerson.third ∧ subj_number = PNumber.singular
            then some (verb.lem = "does")
            else some (verb.lem = "do")
          else if verb.lem = "did" then some true
          else none
        else none
      match doResult with
      | some b => b
      | none =>
        if inSet verb.lem MODAL_VERBS then true
        else if verb.features.participle = some "past" then true
        else if verb.features.tense = some "past" then true
        else if inSet verb.lem PAST_TENSE_VERBS then true
        else if subj_person = PPerson.third ∧ subj_number = PNumber.singular
        then pyEndsWith verb.text "s" || verb.features.sg3.getD false
        else if pyEndsWith verb.text "ed" then true
        else !(pyEndsWith verb.text "s") || inSet verb.lem AUXILIARY_BE

/-- The violation scan of `validator.py`'s `_check_rule_1`: an "a"/"an"
article followed — skipping adjectives and adverbs — by a plural noun. -/
def rule1Violations (toks : List Token) : List (Token × Token) :=
  toks.enum.filterMap (fun p =>
    if (pyLower p.2.text = "a" ∨ pyLower p.2.text = "an") ∧
        p.2.pos = POS.article then
      let j := skipWhileIdx
        (fun t => t.pos = POS.adjective || t.pos = POS.adverb) toks (p.1 + 1)
      if j < toks.length then
        let nt := toks.getD j default
        if nt.pos = POS.noun ∧ nt.number = some PNumber.plural then
          some (p.2, nt)
        else none
      else none
    else none)

/-- `validator.py`'s `_check_rule_1`. -/
def vCheckRule1 (pr : ParseResult) : ParseResult :=
  let violations := rule1Violations pr.tokens
  let pr := { pr with
    rule_checks := dictSet pr.rule_checks "RULE_1" violations.isEmpty }
  { pr with flags := pr.flags ++ violations.map (fun v =>
      { rule := "RULE_1",
        message := "Article '" ++ v.1.text ++
          "' should only be used with singular nouns, not '" ++
          v.2.text ++ "'",
        span := some { start := v.1.start, stop := v.2.stop } }) }

/-- The comparative lemmas excused by `_check_rule_2`. -/
def COMPARATIVE_LEMMAS : List String :=
  ["more", "most", "better", "best", "worse", "worst", "less", "least",
   "further", "furthest", "farther", "farthest"]

/-- The violation scan of `validator.py`'s `_check_rule_2`: a "the"
article not followed — skipping adjectives and adverbs — by a noun,
unless the next token is a comparative adjective/adverb. -/
def rule2Violations (toks : List Token) : List Token :=
  toks.enum.filterMap (fun p =>
    if pyLower p.2.text = "the" ∧ p.2.pos = POS.article then
      if p.1 + 1 < toks.length ∧
          ((toks.getD (p.1 + 1) default).pos = POS.adjective ∨
           (toks.getD (p.1 + 1) default).pos = POS.adverb) ∧
          inSet (toks.getD (p.1 + 1) default).lem COMPARATIVE_LEMMAS then
        none
      else
        let j := skipWhileIdx
          (fun t => t.pos = POS.adjective || t.pos = POS.adverb) toks
          (p.1 + 1)
        if j < toks.length ∧ (toks.getD j default).pos = POS.noun then none
        else some p.2
    else none)

/-- `validator.py`'s `_check_rule_2`. -/
def vCheckRule2 (pr : ParseResult) : ParseResult :=
  let violations := rule2Violations pr.tokens
  let pr := { pr with
    rule_checks := dictSet pr.rule_checks "RULE_2" violations.isEmpty }
  { pr with flags := pr.flags ++ violations.map (fun t =>
      { rule := "RULE_2",
        message := "Article 'the' should be followed by a noun",
        span := some { start := t.start, stop := t.stop } }) }

/-- `validator.py`'s `_is_compound_subject`. -/
def isCompoundSubject (subj : Phrase) : Bool :=
  subj.tokens.any (fun t => pyLower t.text = "and")

/-- `validator.py`'s `_check_rule_4`: like the monolithic copy but with a
virtual plural subject for compound subjects and the richer
`_check_agreement`. -/
def vCheckRule4 (pr : ParseResult) : ParseResult :=
  match pr.subject, pr.verb_phrase with
  | some subj, some vp =>
    let subject_head := subj.head_token
    let verb_to_check := finiteVerbOfVp vp
    let virtual_subject : Token :=
      { text := "compound_subject", lem := "compound_subject",
        pos := POS.noun, start := (subj.tokens.headD default).start,
        stop := (subj.tokens.getLastD default).stop,
        number := some PNumber.plural, person := some PPerson.third }
    let agrees :=
      if isCompoundSubject subj then
        checkAgreementV virtual_subject verb_to_check
      else checkAgreementV subject_head verb_to_check
    let pr := { pr with rule_checks := dictSet pr.rule_checks "RULE_4" agrees }
    if !agrees then
      let f : Flag :=
        { rule := "RULE_4",
          message := "Verb '" ++ verb_to_check.text ++
            "' does not agree with subject '" ++ subject_head.text ++
            "' in number/person",
          span := some { start := min subject_head.start verb_to_check.start,
                         stop := max subject_head.stop verb_to_check.stop } }
      { pr with
        flags := pr.flags ++ [f],
        errors := pr.errors ++ ["RULE 4 violation: Verb '" ++
          verb_to_check.text ++ "' does not agree with subject '" ++
          subject_head.text ++ "' in number/person"] }
    else pr
  | _, _ => pr

/-- `validator.py`'s `GrammarRuleValidator.validate`.  Rules 1–4 run
under their config guards and mutate the result in place; evaluating the
rule-5 guard `if self.config.enforce_rule_5_strict:` then raises
`AttributeError` — `models.ParserConfig` has no such field — so `validate`
never returns normally, and the partially mutated result is discarded by
the propagating exception. -/
def validatorValidate (cfg : ModelsParserConfig) (pr : ParseResult) :
    Except String ParseResult :=
  let pr := if cfg.enforce_rule_1_strict then vCheckRule1 pr else pr
  let pr := if cfg.enforce_rule_2_strict then vCheckRule2 pr else pr
  let pr := if cfg.enforce_rule_3_strict then checkRule3P pr else pr
  let pr := if cfg.enforce_rule_4_strict then vCheckRule4 pr else pr
  let _ := pr
  Except.error
    "AttributeError: 'ParserConfig' object has no attribute 'enforce_rule_5_strict'"

/-- `syntactic.py`'s `SyntacticParser.parse`: same staging as the
monolithic copy, but with the modular classifier (no context) and the
modular validator, whose exception propagates out of `parse`. -/
def syntacticParse (cfg : ModelsParserConfig) (sentence : String) :
    Except String ParseResult :=
  let word_tokens := tokenize sentence
  let tokens := word_tokens.map
    (fun wt => classifierClassify wt.1 wt.2.1 wt.2.2 none)
  let result : ParseResult := { tokens := tokens }
  let result := { result with notes := result.notes ++
    ["Sentence length: " ++ toString sentence.length ++ " chars, " ++
     toString tokens.length ++ " tokens"] }
  let result :=
    if cfg.detect_sentence_type then
      { result with sentence_type := some (detectSentenceType tokens) }
    else result
  match findVerbPhrase tokens with
  | none =>
    Except.ok { result with warnings := result.warnings ++
        ["No finite verb found in sentence"] }
  | some vp =>
    let result := { result with verb_phrase := some vp }
    let subject := findSubject tokens vp
    let result := { result with subject := subject }
    let object_phrase := findObject tokens vp
    let result := { result with object_phrase := object_phrase }
    let voice := determineVoice cfg.detect_get_passive tokens vp object_phrase
    let result := { result with voice := some voice }
    let result :=
      if cfg.detect_tense then
        { result with tense := some (determineTense vp) }
      else result
    validatorValidate cfg result

/-! ### C1 and C3: the modular pipeline's fatal path -/

/-- **C1**: refuted — "The cat sat." tokenizes successfully and reaches
validation, where the missing `enforce_rule_5_strict` attribute raises an
`AttributeError` under *every* `models.ParserConfig`; the modular
pipeline's `parse` therefore does not return a `ParseResult`. -/
theorem c1_modular_parse_raises_for_every_config
    (cfg : ModelsParserConfig) :
    syntacticParse cfg "The cat sat." = Except.error
      "AttributeError: 'ParserConfig' object has no attribute 'enforce_rule_5_strict'" := by
  obtain ⟨vp, hvp⟩ := Option.isSome_iff_exists.mp
    (show (findVerbPhrase ((tokenize "The cat sat.").map
      (fun wt => classifierClassify wt.1 wt.2.1 wt.2.2 none))).isSome = true
     from rfl)
  unfold syntacticParse
  dsimp only []
  rw [hvp]
  rfl

/-- **C3** counterexample: on "The cat sat." the modular pipeline errors
while the monolithic pipeline returns a `ParseResult`, so the two do not
produce equal results. -/
theorem c3_pipelines_diverge_on_the_cat_sat :
    syntacticParse DEFAULT_MCONFIG "The cat sat." ≠
      Except.ok (parserParse DEFAULT_PCONFIG "The cat sat.") :=
  fun h => Except.noConfusion h

/-- **C3** (amended): the pipelines can only agree vacuously — whenever
the modular classifier's tokens contain a verb phrase, the modular
pipeline raises the rule-5 `AttributeError` instead of returning a
`ParseResult`, for every configuration and input. -/
theorem c3_modular_raises_when_vp_found (cfg : ModelsParserConfig)
    (text : String)
    (h : (findVerbPhrase ((tokenize text).map
      (fun wt => classifierClassify wt.1 wt.2.1 wt.2.2 none))).isSome
      = true) :
    syntacticParse cfg text = Except.error
      "AttributeError: 'ParserConfig' object has no attribute 'enforce_rule_5_strict'" := by
  obtain ⟨vp, hvp⟩ := Option.isSome_iff_exists.mp h
  unfold syntacticParse
  dsimp only []
  rw [hvp]
  rfl

/-- **C3** witness: the amended theorem applies to "The cat sat.". -/
theorem c3_modular_raises_when_vp_found_witness :
    syntacticParse DEFAULT_MCONFIG "The cat sat." = Except.error
      "AttributeError: 'ParserConfig' object has no attribute 'enforce_rule_5_strict'" :=
  c3_modular_raises_when_vp_found DEFAULT_MCONFIG "The cat sat." rfl

end Kirkham
